import Mathlib

/-!
Verification development for the claude-code-zellij patch engine.

The program text is modelled as a list of characters (`Str`).  JavaScript
string primitives used by the source (`includes`, `indexOf` + `slice`
splicing, `replace` of the first occurrence, the `while`-replace loop,
`slice(0, n)`) are given executable counterparts below, and the patcher
`patchCliSource`, the identifier extractor `extractMinifiedNames` and the
restore operation `removePatch` are shallow embeddings of the corresponding
TypeScript functions.
-/

set_option maxRecDepth 20000

abbrev Str := List Char

/-- Shorthand turning a Lean string literal into the character-list model. -/
def lit (s : String) : Str := s.data

/-- Split a string at the first occurrence of `find`: returns `some (a, b)`
with the scanned text equal to `a ++ find ++ b`, scanning left to right the
way `String.prototype.indexOf` does; `none` when `find` does not occur. -/
def splitFirst (find : Str) : Str → Option (Str × Str)
  | [] => if find.isEmpty then some ([], []) else none
  | c :: rest =>
    if find.isPrefixOf (c :: rest) then some ([], (c :: rest).drop find.length)
    else match splitFirst find rest with
      | some (a, b) => some (c :: a, b)
      | none => none

/-- Model of `String.prototype.includes`. -/
def jsIncludes (s find : Str) : Bool := (splitFirst find s).isSome

/-- Model of `String.prototype.replace` with a string pattern: replaces the
first occurrence only. -/
def replaceFirst (find repl s : Str) : Str :=
  match splitFirst find s with
  | some (a, b) => a ++ repl ++ b
  | none => s

/-- Model of `while (code.includes(find)) code = code.replace(find, repl)`.
The fuel argument bounds the number of iterations; the patcher always calls
it with fuel exceeding the possible number of replacements (neither
replacement text of the source re-introduces its search text), so the loop
always reaches its fixed point. -/
def replaceWhile (find repl : Str) : Nat → Str → Str
  | 0, s => s
  | fuel + 1, s =>
    if jsIncludes s find then replaceWhile find repl fuel (replaceFirst find repl s)
    else s

/-- Characters matched by the JavaScript regex class `\w`. -/
def isWordChar (c : Char) : Bool := c.isAlphanum || c == '_'

/-- Characters matched by `[A-Za-z0-9_$]` in the TmuxBackend-class regex. -/
def isClassNameChar (c : Char) : Bool := isWordChar c || c == '$'

/-- Characters matched by the JavaScript regex class `\s` (the ASCII ones
plus the common Unicode spaces; the inputs of interest are ASCII). -/
def isJsSpace (c : Char) : Bool :=
  c == ' ' || c == '\t' || c == '\n' || c == '\r' || c == '\x0b' || c == '\x0c' || c == ' '

/-- Consume an exact literal, returning the rest of the input. -/
def expectLit (pat s : Str) : Option Str :=
  if pat.isPrefixOf s then some (s.drop pat.length) else none

/-- Consume a non-empty greedy run of characters satisfying `p` (the
compilation of a greedy `p+` that is followed by a character outside `p`,
which is the shape of every quantifier in the extractor's regexes, so no
backtracking is ever needed). -/
def run1 (p : Char → Bool) (s : Str) : Option (Str × Str) :=
  match s.takeWhile p with
  | [] => none
  | r => some (r, s.dropWhile p)

/-- Try a position-wise matcher at every start position, left to right,
returning the first (leftmost) success — the search behaviour of
`String.prototype.match` with a non-anchored regex. -/
def scanFirst {α : Type} (f : Str → Option α) : Str → Option α
  | [] => f []
  | c :: rest =>
    match f (c :: rest) with
    | some r => some r
    | none => scanFirst f rest

/-- Matcher for `/class\s+([A-Za-z0-9_$]+)\{type="tmux"/` at one position. -/
def tmuxClassAt (s : Str) : Option Str := do
  let s ← expectLit (lit "class") s
  let (_, s) ← run1 isJsSpace s
  let (name, s) ← run1 isClassNameChar s
  let _ ← expectLit (lit "\x7btype=\"tmux\"") s
  pure name

/-- Literal head of the cascade regex (everything before the first capture). -/
def cascadeLit : Str :=
  lit "[BackendRegistry] Selected: tmux (running inside tmux session)\");let "

/-- Matcher for the cascade regex
`/...session\)"\);let (\w+)=(\w+)\(\);return (\w+)=\1,(\w+)=\{backend:\1,isNative:!0,needsIt2Setup:!1\},\4/`
at one position; yields (group2, group3, group4) =
(tmuxFactory, cachedBackendRef, cachedResultVar), checking the
back-references `\1` and `\4` exactly as the regex engine does. -/
def cascadeAt (s : Str) : Option (Str × Str × Str) := do
  let s ← expectLit cascadeLit s
  let (g1, s) ← run1 isWordChar s
  let s ← expectLit (lit "=") s
  let (g2, s) ← run1 isWordChar s
  let s ← expectLit (lit "();return ") s
  let (g3, s) ← run1 isWordChar s
  let s ← expectLit (lit "=") s
  let s ← expectLit g1 s
  let s ← expectLit (lit ",") s
  let (g4, s) ← run1 isWordChar s
  let s ← expectLit (lit "=\x7bbackend:") s
  let s ← expectLit g1 s
  let s ← expectLit (lit ",isNative:!0,needsIt2Setup:!1\x7d,") s
  let _ ← expectLit g4 s
  pure (g2, g3, g4)

/-- Matcher for `/\(await\s+(\w+)\(\w+,\["-V"\]\)\)\.code===0/`. -/
def execAt (s : Str) : Option Str := do
  let s ← expectLit (lit "(await") s
  let (_, s) ← run1 isJsSpace s
  let (fn, s) ← run1 isWordChar s
  let s ← expectLit (lit "(") s
  let (_, s) ← run1 isWordChar s
  let _ ← expectLit (lit ",[\"-V\"])).code===0") s
  pure fn

/-- Matcher for `/case"iterm2":return\s+(\w+)\(\)/`. -/
def iterm2At (s : Str) : Option Str := do
  let s ← expectLit (lit "case\"iterm2\":return") s
  let (_, s) ← run1 isJsSpace s
  let (fn, s) ← run1 isWordChar s
  let _ ← expectLit (lit "()") s
  pure fn

/-- Matcher for `/(\w+)\("\[BackendRegistry\] Starting backend detection\.\.\."\)/`. -/
def logAt (s : Str) : Option Str := do
  let (fn, s) ← run1 isWordChar s
  let _ ← expectLit (lit "(\"[BackendRegistry] Starting backend detection...\")") s
  pure fn

/-- Matcher for `/insideTmux=\$\{(\w+)\(\)\}/`. -/
def tmuxSyncAt (s : Str) : Option Str := do
  let s ← expectLit (lit "insideTmux=$\x7b") s
  let (fn, s) ← run1 isWordChar s
  let _ ← expectLit (lit "()\x7d") s
  pure fn

/-- The identifier bundle extracted from the minified cli.js source. -/
structure Names where
  tmuxBackendClass : Str
  tmuxFactory : Str
  iterm2Factory : Str
  cachedBackendRef : Str
  cachedResultVar : Str
  execFn : Str
  logFn : Str
  isInsideTmuxSyncFn : Str
deriving DecidableEq

/-- Embedding of `extractMinifiedNames` (src/unnamed/part_002, lines 27-83):
six independent anchored regex searches; if any one fails the whole
extraction returns `none`. -/
def extractMinifiedNames (code : Str) : Option Names :=
  match scanFirst tmuxClassAt code with
  | none => none
  | some tmuxBackendClass =>
    match scanFirst cascadeAt code with
    | none => none
    | some (tmuxFactory, cachedBackendRef, cachedResultVar) =>
      match scanFirst execAt code with
      | none => none
      | some execFn =>
        match scanFirst iterm2At code with
        | none => none
        | some iterm2Factory =>
          match scanFirst logAt code with
          | none => none
          | some logFn =>
            match scanFirst tmuxSyncAt code with
            | none => none
            | some isInsideTmuxSyncFn =>
              some ⟨tmuxBackendClass, tmuxFactory, iterm2Factory,
                    cachedBackendRef, cachedResultVar, execFn, logFn,
                    isInsideTmuxSyncFn⟩

/-- The `ZELLIJ_DETECTION_CODE` block (part_002 lines 146-150), with the
extracted exec-helper name spliced in; lines joined by newlines. -/
def zellijDetectionCode (ns : Names) : Str :=
  lit "function isInsideZellijSync()\x7breturn process.env.ZELLIJ===\"0\"&&!!process.env.ZELLIJ_SESSION_NAME\x7d\n" ++
  lit "async function isInsideZellij()\x7breturn isInsideZellijSync()\x7d\n" ++
  lit "async function isZellijAvailable()\x7btry\x7breturn(await " ++ ns.execFn ++
  lit "(\"which\",[\"zellij\"])).code===0\x7dcatch\x7breturn!1\x7d\x7d"

/-- The `ZELLIJ_BACKEND_CLASS` block (part_002 lines 152-188), with the
extracted exec-helper and logger names spliced in. -/
def zellijBackendClass (ns : Names) : Str :=
  lit "var zellijLockQueue=Promise.resolve();\n" ++
  lit "var zellijBackendRegistered=null;\n" ++
  lit "function registerZellijBackend(A)\x7bzellijBackendRegistered=A\x7d\n" ++
  lit "function createZellijBackend()\x7bif(!zellijBackendRegistered)throw Error(\"ZellijBackend not registered.\");return new zellijBackendRegistered\x7d\n" ++
  lit "class ZellijBackendImpl\x7btype=\"zellij\";displayName=\"Zellij\";supportsHideShow=!1;paneCount=0;_pendingRelease=null;" ++
  lit "async isAvailable()\x7breturn isInsideZellijSync()||await isZellijAvailable()\x7d" ++
  lit "async isRunningInside()\x7breturn isInsideZellij()\x7d" ++
  lit "async createTeammatePaneInSwarmView(A,q)\x7b" ++
  lit "let K,Y=new Promise((z)=>\x7bK=z\x7d),w=zellijLockQueue;zellijLockQueue=Y;await w;" ++
  lit "try\x7blet z=this.paneCount===0;this.paneCount++;" ++
  lit "let H=\"zellij-\"+A+\"-\"+this.paneCount;" ++
  lit "let $=await " ++ ns.execFn ++ lit "(\"zellij\",[\"action\",\"new-pane\",\"--name\",A]);" ++
  lit "if($.code!==0)\x7bK();throw Error(\"Failed to create Zellij pane for \"+A+\": \"+$.stderr)\x7d" ++
  lit "this._pendingRelease=K;" ++
  ns.logFn ++ lit "(\"[ZellijBackend] Created pane for \"+A+\": \"+H+\", isFirst=\"+z);" ++
  lit "await new Promise(O=>setTimeout(O,200));" ++
  lit "return\x7bpaneId:H,isFirstTeammate:z\x7d" ++
  lit "\x7dcatch(z)\x7bif(this._pendingRelease)\x7bthis._pendingRelease();this._pendingRelease=null\x7delse\x7bK()\x7dthrow z\x7d\x7d" ++
  lit "async sendCommandToPane(A,q,K)\x7b" ++
  lit "try\x7blet Y=await " ++ ns.execFn ++ lit "(\"zellij\",[\"action\",\"write-chars\",q]);" ++
  lit "if(Y.code!==0)throw Error(\"Failed to write to Zellij pane \"+A+\": \"+Y.stderr);" ++
  lit "let z=await " ++ ns.execFn ++ lit "(\"zellij\",[\"action\",\"write\",\"13\"]);" ++
  lit "if(z.code!==0)throw Error(\"Failed to send Enter to Zellij pane \"+A+\": \"+z.stderr);" ++
  ns.logFn ++ lit "(\"[ZellijBackend] Sent command to pane \"+A)" ++
  lit "\x7dfinally\x7bif(this._pendingRelease)\x7bthis._pendingRelease();this._pendingRelease=null\x7d\x7d\x7d" ++
  lit "async setPaneBorderColor(A,q,K)\x7b\x7d" ++
  lit "async setPaneTitle(A,q,K,Y)\x7b\x7d" ++
  lit "async enablePaneBorderStatus(A,q)\x7b\x7d" ++
  lit "async rebalancePanes(A,q)\x7b" ++ ns.logFn ++ lit "(\"[ZellijBackend] rebalancePanes: no-op\")\x7d" ++
  lit "async killPane(A,q)\x7b" ++ ns.logFn ++ lit "(\"[ZellijBackend] killPane \"+A+\": best-effort\");return!0\x7d" ++
  lit "async hidePane(A,q)\x7breturn!1\x7d" ++
  lit "async showPane(A,q,K)\x7breturn!1\x7d\x7d\n" ++
  lit "registerZellijBackend(ZellijBackendImpl);"

/-- PATCH 1 anchor: `class <tmuxBackendClass>{type="tmux"`. -/
def p1Anchor (ns : Names) : Str :=
  lit "class " ++ ns.tmuxBackendClass ++ lit "\x7btype=\"tmux\""

/-- PATCH 2 anchor: the cascade log message (a fixed literal). -/
def cascadeAnchor : Str :=
  lit "[BackendRegistry] Not in tmux or iTerm2, tmux available: $\x7bK\x7d`)"

/-- The Zellij branch inserted by PATCH 2, built with extracted names. -/
def zellijCheck (ns : Names) : Str :=
  lit "if(isInsideZellijSync())\x7b" ++ ns.logFn ++
  lit "(\"[BackendRegistry] Selected: zellij (running inside Zellij session)\");" ++
  lit "let ZB=createZellijBackend();" ++
  lit "return " ++ ns.cachedBackendRef ++ lit "=ZB," ++ ns.cachedResultVar ++
  lit "=\x7bbackend:ZB,isNative:!0,needsIt2Setup:!1\x7d," ++ ns.cachedResultVar ++ lit "\x7d"

/-- Deterministic compilation of `/let K=await\s+\w+\(\);if\(\w+\(`$/`: the
`$` anchor means a successful parse must consume the input exactly.  Every
quantifier is followed by a character outside its class, so no backtracking
arises. -/
def letKParse (s : Str) : Bool :=
  (Option.isSome (do
    let s ← expectLit (lit "let K=await") s
    let (_, s) ← run1 isJsSpace s
    let (_, s) ← run1 isWordChar s
    let s ← expectLit (lit "();if(") s
    let (_, s) ← run1 isWordChar s
    let s ← expectLit (lit "(`") s
    if s.isEmpty then some () else none : Option Unit))

/-- Leftmost position of the 200-character window at which `letKParse`
succeeds.  Because every successful parse consumes the window to its end,
this position equals `searchStart + prefix.lastIndexOf(match[0])` of the
source. -/
def firstLetK : Str → Option Nat
  | [] => if letKParse [] then some 0 else none
  | c :: rest =>
    if letKParse (c :: rest) then some 0
    else (firstLetK rest).map (· + 1)

/-- PATCH 3 anchor (fixed literal). -/
def errorAnchor : Str :=
  lit "throw h(\"[BackendRegistry] ERROR: No pane backend available\")"

/-- The external fallback branch inserted by PATCH 3. -/
def zellijFallback (ns : Names) : Str :=
  lit "\x7blet ZA=await isZellijAvailable();" ++
  lit "if(" ++ ns.logFn ++ lit "(\"[BackendRegistry] Checking zellij availability: \"+ZA),ZA)\x7b" ++
  ns.logFn ++ lit "(\"[BackendRegistry] Selected: zellij (external)\");" ++
  lit "let ZB=createZellijBackend();" ++
  lit "return " ++ ns.cachedBackendRef ++ lit "=ZB," ++ ns.cachedResultVar ++
  lit "=\x7bbackend:ZB,isNative:!1,needsIt2Setup:!1\x7d," ++ ns.cachedResultVar ++ lit "\x7d\x7d"

/-- PATCH 4 anchor: the juxtaposed tmux and iterm2 dispatch cases. -/
def p4Anchor (ns : Names) : Str :=
  lit "case\"tmux\":return " ++ ns.tmuxFactory ++
  lit "();case\"iterm2\":return " ++ ns.iterm2Factory ++ lit "()"

/-- The case appended by PATCH 4. -/
def p4Ext : Str := lit ";case\"zellij\":return createZellijBackend()"

/-- PATCH 6 search text: `else q=!<isInsideTmuxSyncFn>()`. -/
def p6Find (ns : Names) : Str :=
  lit "else q=!" ++ ns.isInsideTmuxSyncFn ++ lit "()"

/-- PATCH 6 replacement: the same expression extended with the Zellij check. -/
def p6Repl (ns : Names) : Str :=
  lit "else q=!" ++ ns.isInsideTmuxSyncFn ++ lit "()&&!isInsideZellijSync()"

/-- First PATCH 5 message replacement pair (find, replace). -/
def msgFind1 : Str := lit "To use agent swarms, install tmux:"
def msgRepl1 : Str := lit "To use agent swarms, install tmux or start a Zellij session (zellij):"

/-- Second PATCH 5 message replacement pair (find, replace). -/
def msgFind2 : Str := lit "To use agent swarms, install tmux using your system's package manager."
def msgRepl2 : Str := lit "To use agent swarms, install tmux or Zellij using your system's package manager."

/-- The PATCH 5 message replacement list (part_002 lines 280-291). -/
def msgPairs : List (Str × Str) := [(msgFind1, msgRepl1), (msgFind2, msgRepl2)]

def lbl1ok : Str := lit "Injected ZellijBackend class and detection functions"
def lbl1fail : Str := lit "PATCH 1: Could not find TmuxBackend class anchor"
def lbl2ok : Str := lit "Inserted Zellij detection in backend cascade"
def lbl2failStart : Str := lit "PATCH 2: Found cascade log message but could not locate statement start"
def lbl2failAnchor : Str := lit "PATCH 2: Could not find cascade anchor for Zellij detection"
def lbl3ok : Str := lit "Added Zellij as external fallback before error"
def lbl3fail : Str := lit "PATCH 3: Could not find error anchor for Zellij fallback"
def lbl4ok : Str := lit "Added \"zellij\" case to getBackendByType"
def lbl4fail : Str := lit "PATCH 4: Could not find getBackendByType anchor"
def lbl6ok : Str := lit "Patched isInProcessEnabled to recognize Zellij sessions"
def lbl6fail : Str := lit "PATCH 6: Could not find isInProcessEnabled anchor for Zellij check"

/-- Per-pair report labels of PATCH 5 (`find.slice(0, 40)` is `take 40`). -/
def msgAppliedLabel (f : Str) : Str :=
  lit "Updated error message: \"" ++ f.take 40 ++ lit "...\""

def msgWarnLabel (f : Str) : Str :=
  lit "Error message not found (may already be patched): \"" ++ f.take 40 ++ lit "...\""

/-- Outcome of one edit step: the (possibly) transformed text and the labels
the step pushes onto the applied / failed / warnings lists. -/
structure StepRes where
  code : Str
  applied : List Str
  failed : List Str
  warnings : List Str
deriving DecidableEq

/-- PATCH 1 (part_002 lines 190-206): splice the generated blocks in at the
first occurrence of the TmuxBackend class anchor (`indexOf` + two `slice`s,
which is exactly the `splitFirst` decomposition). -/
def step1 (ns : Names) (c : Str) : StepRes :=
  match splitFirst (p1Anchor ns) c with
  | some (a, b) =>
    ⟨a ++ zellijDetectionCode ns ++ lit "\n" ++ zellijBackendClass ns ++ lit "\n" ++
       (p1Anchor ns ++ b),
     [lbl1ok], [], []⟩
  | none => ⟨c, [], [lbl1fail], []⟩

/-- PATCH 2 (part_002 lines 208-242): locate the cascade anchor, scan
backwards over at most 200 characters for the start of the enclosing
statement, and insert the Zellij branch there. -/
def step2 (ns : Names) (c : Str) : StepRes :=
  match splitFirst cascadeAnchor c with
  | none => ⟨c, [], [lbl2failAnchor], []⟩
  | some (a, _) =>
    match firstLetK (a.drop (a.length - min a.length 200)) with
    | none => ⟨c, [], [lbl2failStart], []⟩
    | some j =>
      ⟨c.take (a.length - min a.length 200 + j) ++ zellijCheck ns ++
         c.drop (a.length - min a.length 200 + j), [lbl2ok], [], []⟩

/-- PATCH 3 (part_002 lines 244-261). -/
def step3 (ns : Names) (c : Str) : StepRes :=
  if jsIncludes c errorAnchor then
    ⟨replaceFirst errorAnchor (zellijFallback ns ++ errorAnchor) c, [lbl3ok], [], []⟩
  else ⟨c, [], [lbl3fail], []⟩

/-- PATCH 4 (part_002 lines 263-275). -/
def step4 (ns : Names) (c : Str) : StepRes :=
  if jsIncludes c (p4Anchor ns) then
    ⟨replaceFirst (p4Anchor ns) (p4Anchor ns ++ p4Ext) c, [lbl4ok], [], []⟩
  else ⟨c, [], [lbl4fail], []⟩

/-- PATCH 5 (part_002 lines 277-304): iterate over the replacement pairs;
a present literal is replaced everywhere and reported as applied, an absent
one is reported as a non-fatal warning. -/
def msgStep : List (Str × Str) → Str → Str × List Str × List Str
  | [], c => (c, [], [])
  | (f, r) :: rest, c =>
    if jsIncludes c f then
      let c' := replaceWhile f r (c.length + 1) c
      let (c2, as, ws) := msgStep rest c'
      (c2, msgAppliedLabel f :: as, ws)
    else
      let (c2, as, ws) := msgStep rest c
      (c2, as, msgWarnLabel f :: ws)

/-- PATCH 6 (part_002 lines 306-330). -/
def step6 (ns : Names) (c : Str) : StepRes :=
  if jsIncludes c (p6Find ns) then
    ⟨replaceFirst (p6Find ns) (p6Repl ns) c, [lbl6ok], [], []⟩
  else ⟨c, [], [lbl6fail], []⟩

/-- The edit phase: the six patches in their fixed order, each operating on
the text produced by the steps before it, with the report lists accumulated
in push order. -/
def runSteps (ns : Names) (c : Str) : StepRes :=
  let r1 := step1 ns c
  let r2 := step2 ns r1.code
  let r3 := step3 ns r2.code
  let r4 := step4 ns r3.code
  let m := msgStep msgPairs r4.code
  let r6 := step6 ns m.1
  ⟨r6.code,
   r1.applied ++ r2.applied ++ r3.applied ++ r4.applied ++ m.2.1 ++ r6.applied,
   r1.failed ++ r2.failed ++ r3.failed ++ r4.failed ++ r6.failed,
   m.2.2⟩

/-- Report record returned by the patcher (part_002 lines 15-21). -/
structure PatchResult where
  success : Bool
  patchedSource : Option Str
  appliedPatches : List Str
  failedPatches : List Str
  warnings : List Str
deriving DecidableEq

/-- Early return for input lacking the recognition markers. -/
def notRecognizedResult : PatchResult :=
  ⟨false, none, [], [lit "File does not appear to be Claude Code cli.js"], []⟩

/-- Early return for input already carrying the injected signature tokens. -/
def alreadyPatchedResult : PatchResult :=
  ⟨false, none, [], [lit "File appears to already be patched with Zellij support"], []⟩

/-- Early return when identifier extraction fails. -/
def extractionFailedResult : PatchResult :=
  ⟨false, none, [],
   [lit "Could not extract minified variable names. The cli.js structure may have changed significantly."],
   []⟩

/-- The idempotency guard (part_002 lines 107-110). -/
def alreadyPatchedCheck (c : Str) : Bool :=
  jsIncludes c (lit "ZellijBackendImpl") || jsIncludes c (lit "isInsideZellijSync")

/-- Embedding of `patchCliSource` (part_002 lines 89-339). -/
def patchCliSource (source : Str) : PatchResult :=
  if !jsIncludes source (lit "BackendRegistry") || !jsIncludes source (lit "type=\"tmux\"") then
    notRecognizedResult
  else if alreadyPatchedCheck source then alreadyPatchedResult
  else
    match extractMinifiedNames source with
    | none => extractionFailedResult
    | some ns =>
      let r := runSteps ns source
      ⟨r.failed.length == 0,
       if r.failed.length == 0 then some r.code else none,
       r.applied, r.failed, r.warnings⟩

/-- Minimal filesystem model for the restore operation: an association list
from paths to file contents; the head entry for a path is its content. -/
abbrev Fs := List (Str × Str)

def fsLookup : Fs → Str → Option Str
  | [], _ => none
  | (p, c) :: rest, q => if p = q then some c else fsLookup rest q

/-- Model of a file write: the new binding shadows any previous one. -/
def fsSet (fs : Fs) (p c : Str) : Fs := (p, c) :: fs

/-- Model of `fs.existsSync`. -/
def existsSync (fs : Fs) (p : Str) : Bool := (fsLookup fs p).isSome

/-- Model of `fs.copyFileSync src dst`.  When `src` is absent node throws;
`removePatch` only calls it under an `existsSync` guard, so that branch is
unreachable there and is modelled as a no-op. -/
def copyFileSync (fs : Fs) (src dst : Str) : Fs :=
  match fsLookup fs src with
  | some content => fsSet fs dst content
  | none => fs

/-- Embedding of `removePatch` (part_002 lines 423-430): restore the target
from `<target>.bak`, returning whether a backup existed, together with the
resulting filesystem. -/
def removePatch (fs : Fs) (cliJsPath : Str) : Bool × Fs :=
  let backupPath := cliJsPath ++ lit ".bak"
  if existsSync fs backupPath then (true, copyFileSync fs backupPath cliJsPath)
  else (false, fs)

/-- The last `n` characters of a string (all of it when shorter). -/
def takeLast (n : Nat) (l : Str) : Str := l.drop (l.length - n)

/-- A text carrying the injected signature token but neither recognition
marker: both the idempotency guard and the recognition check could reject
it. -/
def sigOnlyText : Str := lit "ZellijBackendImpl"

/-- A text carrying both recognition markers and a signature token. -/
def sigAndMarkersText : Str := lit "BackendRegistry type=\"tmux\" ZellijBackendImpl"

/-- A text passing the recognition check whose tmux-class pattern matches
but whose cascade pattern does not: extraction must fail as a whole. -/
def w5Text : Str := lit "class TB\x7btype=\"tmux\"\x7d;BackendRegistry"

/-- A text with neither recognition marker. -/
def w6Text : Str := lit "plain text"

/-- A dummy identifier bundle for exercising the edit phase on its own. -/
def dummyNames : Names :=
  ⟨lit "A", lit "A", lit "A", lit "A", lit "A", lit "A", lit "A", lit "A"⟩

/-- A miniature cli.js-shaped text containing every extraction pattern and
every patch anchor (mangled names `TB TF IT CB CR EX LG TS`). -/
def witSrc : Str := lit "LG(\"[BackendRegistry] Starting backend detection...\");class TB\x7btype=\"tmux\"\x7d;LG(\"[BackendRegistry] Selected: tmux (running inside tmux session)\");let Y1=TF();return CB=Y1,CR=\x7bbackend:Y1,isNative:!0,needsIt2Setup:!1\x7d,CR;if((await EX(tv,[\"-V\"])).code===0)\x7b\x7d;let K=await Ts();if(LG(`[BackendRegistry] Not in tmux or iTerm2, tmux available: $\x7bK\x7d`));throw h(\"[BackendRegistry] ERROR: No pane backend available\");switch(t)\x7bcase\"tmux\":return TF();case\"iterm2\":return IT()\x7d;e1=\"To use agent swarms, install tmux:\";e2=\"To use agent swarms, install tmux using your system's package manager.\";x=\"insideTmux=$\x7bTS()\x7d\";if(w)q=!0;else q=!TS();"

/-- The identifier bundle `extractMinifiedNames` finds in `witSrc`. -/
def witNames : Names :=
  ⟨lit "TB", lit "TF", lit "IT", lit "CB", lit "CR", lit "EX", lit "LG", lit "TS"⟩

/-- `witSrc` with the second user-facing message literal absent. -/
def w10Text : Str := lit "LG(\"[BackendRegistry] Starting backend detection...\");class TB\x7btype=\"tmux\"\x7d;LG(\"[BackendRegistry] Selected: tmux (running inside tmux session)\");let Y1=TF();return CB=Y1,CR=\x7bbackend:Y1,isNative:!0,needsIt2Setup:!1\x7d,CR;if((await EX(tv,[\"-V\"])).code===0)\x7b\x7d;let K=await Ts();if(LG(`[BackendRegistry] Not in tmux or iTerm2, tmux available: $\x7bK\x7d`));throw h(\"[BackendRegistry] ERROR: No pane backend available\");switch(t)\x7bcase\"tmux\":return TF();case\"iterm2\":return IT()\x7d;e1=\"To use agent swarms, install tmux:\";x=\"insideTmux=$\x7bTS()\x7d\";if(w)q=!0;else q=!TS();"

/-- `witSrc` with the first user-facing message literal absent. -/
def w4Text : Str := lit "LG(\"[BackendRegistry] Starting backend detection...\");class TB\x7btype=\"tmux\"\x7d;LG(\"[BackendRegistry] Selected: tmux (running inside tmux session)\");let Y1=TF();return CB=Y1,CR=\x7bbackend:Y1,isNative:!0,needsIt2Setup:!1\x7d,CR;if((await EX(tv,[\"-V\"])).code===0)\x7b\x7d;let K=await Ts();if(LG(`[BackendRegistry] Not in tmux or iTerm2, tmux available: $\x7bK\x7d`));throw h(\"[BackendRegistry] ERROR: No pane backend available\");switch(t)\x7bcase\"tmux\":return TF();case\"iterm2\":return IT()\x7d;e2=\"To use agent swarms, install tmux using your system's package manager.\";x=\"insideTmux=$\x7bTS()\x7d\";if(w)q=!0;else q=!TS();"

/-- Checker data for scanning a long concatenation in bounded pieces: each
entry pairs a chunk with the precomputed last-`w`-characters buffer after
that chunk is appended.  `tailsOkB` validates the precomputed buffers. -/
def tailsOkB (w : Nat) : Str → List (Str × Str) → Bool
  | _, [] => true
  | tb, (z, tb') :: rest => (tb' == takeLast w (tb ++ z)) && tailsOkB w tb' rest

/-- Bounded-buffer search: `f` occurs nowhere in any `buffer ++ chunk`
window, hence (soundness theorem below) nowhere in the concatenation. -/
def hitsFreeB (f : Str) : Str → List (Str × Str) → Bool
  | _, [] => true
  | tb, (z, tb') :: rest => !(jsIncludes (tb ++ z) f) && hitsFreeB f tb' rest

/-- The concatenation of the chunks of a checker list. -/
def chunksText : List (Str × Str) → Str
  | [] => []
  | (z, _) :: rest => z ++ chunksText rest

/-- The buffer recorded after the last chunk. -/
def finalTail (tb : Str) : List (Str × Str) → Str
  | [] => tb
  | (_, tb') :: rest => finalTail tb' rest

/-- The text preceding the PATCH 1 anchor in `witSrc`. -/
def w1a : Str := lit "LG(\"[BackendRegistry] Starting backend detection...\");"

/-- The text following the PATCH 1 anchor in `witSrc`. -/
def w1b : Str := lit "\x7d;LG(\"[BackendRegistry] Selected: tmux (running inside tmux session)\");let Y1=TF();return CB=Y1,CR=\x7bbackend:Y1,isNative:!0,needsIt2Setup:!1\x7d,CR;if((await EX(tv,[\"-V\"])).code===0)\x7b\x7d;let K=await Ts();if(LG(`[BackendRegistry] Not in tmux or iTerm2, tmux available: $\x7bK\x7d`));throw h(\"[BackendRegistry] ERROR: No pane backend available\");switch(t)\x7bcase\"tmux\":return TF();case\"iterm2\":return IT()\x7d;e1=\"To use agent swarms, install tmux:\";e2=\"To use agent swarms, install tmux using your system's package manager.\";x=\"insideTmux=$\x7bTS()\x7d\";if(w)q=!0;else q=!TS();"

/-- The text PATCH 1 places before the re-attached anchor. -/
def w2Pre : Str :=
  w1a ++ zellijDetectionCode witNames ++ lit "\n" ++ zellijBackendClass witNames ++ lit "\n"

/-- The part of `p1Anchor witNames ++ w1b` preceding its first cascade anchor. -/
def wX2 : Str := lit "class TB\x7btype=\"tmux\"\x7d;LG(\"[BackendRegistry] Selected: tmux (running inside tmux session)\");let Y1=TF();return CB=Y1,CR=\x7bbackend:Y1,isNative:!0,needsIt2Setup:!1\x7d,CR;if((await EX(tv,[\"-V\"])).code===0)\x7b\x7d;let K=await Ts();if(LG(`"

/-- The part of `p1Anchor witNames ++ w1b` following its first cascade anchor. -/
def wB2 : Str := lit ");throw h(\"[BackendRegistry] ERROR: No pane backend available\");switch(t)\x7bcase\"tmux\":return TF();case\"iterm2\":return IT()\x7d;e1=\"To use agent swarms, install tmux:\";e2=\"To use agent swarms, install tmux using your system's package manager.\";x=\"insideTmux=$\x7bTS()\x7d\";if(w)q=!0;else q=!TS();"

/-- Chunk/tail checker list covering `w2Pre` with buffer width 62
(one less than the cascade anchor length). -/
def pairsW : List (Str × Str) := [
  (w1a,
   lit "LG(\"[BackendRegistry] Starting backend detection...\");"),
  (lit "function isInsideZellijSync()\x7breturn process.env.ZELLIJ===\"0\"&&!!process.env.ZELLIJ_SESSION_NAME\x7d\n",
   lit " process.env.ZELLIJ===\"0\"&&!!process.env.ZELLIJ_SESSION_NAME\x7d\n"),
  (lit "async function isInsideZellij()\x7breturn isInsideZellijSync()\x7d\n",
   lit "\nasync function isInsideZellij()\x7breturn isInsideZellijSync()\x7d\n"),
  (lit "async function isZellijAvailable()\x7btry\x7breturn(await ",
   lit "ijSync()\x7d\nasync function isZellijAvailable()\x7btry\x7breturn(await "),
  (witNames.execFn,
   lit "Sync()\x7d\nasync function isZellijAvailable()\x7btry\x7breturn(await EX"),
  (lit "(\"which\",[\"zellij\"])).code===0\x7dcatch\x7breturn!1\x7d\x7d",
   lit "return(await EX(\"which\",[\"zellij\"])).code===0\x7dcatch\x7breturn!1\x7d\x7d"),
  (lit "\n",
   lit "eturn(await EX(\"which\",[\"zellij\"])).code===0\x7dcatch\x7breturn!1\x7d\x7d\n"),
  (lit "var zellijLockQueue=Promise.resolve();\n",
   lit "e===0\x7dcatch\x7breturn!1\x7d\x7d\nvar zellijLockQueue=Promise.resolve();\n"),
  (lit "var zellijBackendRegistered=null;\n",
   lit "ockQueue=Promise.resolve();\nvar zellijBackendRegistered=null;\n"),
  (lit "function registerZellijBackend(A)\x7bzellijBackendRegistered=A\x7d\n",
   lit "\nfunction registerZellijBackend(A)\x7bzellijBackendRegistered=A\x7d\n"),
  (lit "function createZellijBackend()\x7bif(!zellijBackendRegistered)throw Error(\"ZellijBackend not registered.\");return new zellijBackendRegistered\x7d\n",
   lit "Backend not registered.\");return new zellijBackendRegistered\x7d\n"),
  (lit "class ZellijBackendImpl\x7btype=\"zellij\";displayName=\"Zellij\";supportsHideShow=!1;paneCount=0;_pendingRelease=null;",
   lit "\"Zellij\";supportsHideShow=!1;paneCount=0;_pendingRelease=null;"),
  (lit "async isAvailable()\x7breturn isInsideZellijSync()||await isZellijAvailable()\x7d",
   lit "able()\x7breturn isInsideZellijSync()||await isZellijAvailable()\x7d"),
  (lit "async isRunningInside()\x7breturn isInsideZellij()\x7d",
   lit "ijAvailable()\x7dasync isRunningInside()\x7breturn isInsideZellij()\x7d"),
  (lit "async createTeammatePaneInSwarmView(A,q)\x7b",
   lit "urn isInsideZellij()\x7dasync createTeammatePaneInSwarmView(A,q)\x7b"),
  (lit "let K,Y=new Promise((z)=>\x7bK=z\x7d),w=zellijLockQueue;zellijLockQueue=Y;await w;",
   lit "omise((z)=>\x7bK=z\x7d),w=zellijLockQueue;zellijLockQueue=Y;await w;"),
  (lit "try\x7blet z=this.paneCount===0;this.paneCount++;",
   lit "Queue=Y;await w;try\x7blet z=this.paneCount===0;this.paneCount++;"),
  (lit "let H=\"zellij-\"+A+\"-\"+this.paneCount;",
   lit "unt===0;this.paneCount++;let H=\"zellij-\"+A+\"-\"+this.paneCount;"),
  (lit "let $=await ",
   lit ".paneCount++;let H=\"zellij-\"+A+\"-\"+this.paneCount;let $=await "),
  (witNames.execFn,
   lit "aneCount++;let H=\"zellij-\"+A+\"-\"+this.paneCount;let $=await EX"),
  (lit "(\"zellij\",[\"action\",\"new-pane\",\"--name\",A]);",
   lit "unt;let $=await EX(\"zellij\",[\"action\",\"new-pane\",\"--name\",A]);"),
  (lit "if($.code!==0)\x7bK();throw Error(\"Failed to create Zellij pane for \"+A+\": \"+$.stderr)\x7d",
   lit "ow Error(\"Failed to create Zellij pane for \"+A+\": \"+$.stderr)\x7d"),
  (lit "this._pendingRelease=K;",
   lit "ate Zellij pane for \"+A+\": \"+$.stderr)\x7dthis._pendingRelease=K;"),
  (witNames.logFn,
   lit "e Zellij pane for \"+A+\": \"+$.stderr)\x7dthis._pendingRelease=K;LG"),
  (lit "(\"[ZellijBackend] Created pane for \"+A+\": \"+H+\", isFirst=\"+z);",
   lit "(\"[ZellijBackend] Created pane for \"+A+\": \"+H+\", isFirst=\"+z);"),
  (lit "await new Promise(O=>setTimeout(O,200));",
   lit ": \"+H+\", isFirst=\"+z);await new Promise(O=>setTimeout(O,200));"),
  (lit "return\x7bpaneId:H,isFirstTeammate:z\x7d",
   lit "omise(O=>setTimeout(O,200));return\x7bpaneId:H,isFirstTeammate:z\x7d"),
  (lit "\x7dcatch(z)\x7bif(this._pendingRelease)\x7bthis._pendingRelease();this._pendingRelease=null\x7delse\x7bK()\x7dthrow z\x7d\x7d",
   lit "_pendingRelease();this._pendingRelease=null\x7delse\x7bK()\x7dthrow z\x7d\x7d"),
  (lit "async sendCommandToPane(A,q,K)\x7b",
   lit "Release=null\x7delse\x7bK()\x7dthrow z\x7d\x7dasync sendCommandToPane(A,q,K)\x7b"),
  (lit "try\x7blet Y=await ",
   lit "e\x7bK()\x7dthrow z\x7d\x7dasync sendCommandToPane(A,q,K)\x7btry\x7blet Y=await "),
  (witNames.execFn,
   lit "K()\x7dthrow z\x7d\x7dasync sendCommandToPane(A,q,K)\x7btry\x7blet Y=await EX"),
  (lit "(\"zellij\",[\"action\",\"write-chars\",q]);",
   lit ",q,K)\x7btry\x7blet Y=await EX(\"zellij\",[\"action\",\"write-chars\",q]);"),
  (lit "if(Y.code!==0)throw Error(\"Failed to write to Zellij pane \"+A+\": \"+Y.stderr);",
   lit "hrow Error(\"Failed to write to Zellij pane \"+A+\": \"+Y.stderr);"),
  (lit "let z=await ",
   lit "Failed to write to Zellij pane \"+A+\": \"+Y.stderr);let z=await "),
  (witNames.execFn,
   lit "iled to write to Zellij pane \"+A+\": \"+Y.stderr);let z=await EX"),
  (lit "(\"zellij\",[\"action\",\"write\",\"13\"]);",
   lit " \"+Y.stderr);let z=await EX(\"zellij\",[\"action\",\"write\",\"13\"]);"),
  (lit "if(z.code!==0)throw Error(\"Failed to send Enter to Zellij pane \"+A+\": \"+z.stderr);",
   lit "Error(\"Failed to send Enter to Zellij pane \"+A+\": \"+z.stderr);"),
  (witNames.logFn,
   lit "ror(\"Failed to send Enter to Zellij pane \"+A+\": \"+z.stderr);LG"),
  (lit "(\"[ZellijBackend] Sent command to pane \"+A)",
   lit "A+\": \"+z.stderr);LG(\"[ZellijBackend] Sent command to pane \"+A)"),
  (lit "\x7dfinally\x7bif(this._pendingRelease)\x7bthis._pendingRelease();this._pendingRelease=null\x7d\x7d\x7d",
   lit "ngRelease)\x7bthis._pendingRelease();this._pendingRelease=null\x7d\x7d\x7d"),
  (lit "async setPaneBorderColor(A,q,K)\x7b\x7d",
   lit ";this._pendingRelease=null\x7d\x7d\x7dasync setPaneBorderColor(A,q,K)\x7b\x7d"),
  (lit "async setPaneTitle(A,q,K,Y)\x7b\x7d",
   lit "async setPaneBorderColor(A,q,K)\x7b\x7dasync setPaneTitle(A,q,K,Y)\x7b\x7d"),
  (lit "async enablePaneBorderStatus(A,q)\x7b\x7d",
   lit "ync setPaneTitle(A,q,K,Y)\x7b\x7dasync enablePaneBorderStatus(A,q)\x7b\x7d"),
  (lit "async rebalancePanes(A,q)\x7b",
   lit "\x7dasync enablePaneBorderStatus(A,q)\x7b\x7dasync rebalancePanes(A,q)\x7b"),
  (witNames.logFn,
   lit "sync enablePaneBorderStatus(A,q)\x7b\x7dasync rebalancePanes(A,q)\x7bLG"),
  (lit "(\"[ZellijBackend] rebalancePanes: no-op\")\x7d",
   lit "balancePanes(A,q)\x7bLG(\"[ZellijBackend] rebalancePanes: no-op\")\x7d"),
  (lit "async killPane(A,q)\x7b",
   lit "(\"[ZellijBackend] rebalancePanes: no-op\")\x7dasync killPane(A,q)\x7b"),
  (witNames.logFn,
   lit "[ZellijBackend] rebalancePanes: no-op\")\x7dasync killPane(A,q)\x7bLG"),
  (lit "(\"[ZellijBackend] killPane \"+A+\": best-effort\");return!0\x7d",
   lit "q)\x7bLG(\"[ZellijBackend] killPane \"+A+\": best-effort\");return!0\x7d"),
  (lit "async hidePane(A,q)\x7breturn!1\x7d",
   lit "ne \"+A+\": best-effort\");return!0\x7dasync hidePane(A,q)\x7breturn!1\x7d"),
  (lit "async showPane(A,q,K)\x7breturn!1\x7d\x7d\n",
   lit "async hidePane(A,q)\x7breturn!1\x7dasync showPane(A,q,K)\x7breturn!1\x7d\x7d\n"),
  (lit "registerZellijBackend(ZellijBackendImpl);",
   lit "ne(A,q,K)\x7breturn!1\x7d\x7d\nregisterZellijBackend(ZellijBackendImpl);"),
  (lit "\n",
   lit "e(A,q,K)\x7breturn!1\x7d\x7d\nregisterZellijBackend(ZellijBackendImpl);\n")]

/-- The text before the PATCH 1 anchor in `w0Text`. -/
def w0a : Str := lit "LG(\"[BackendRegistry] Starting backend detection...\");"

/-- The text after the PATCH 1 anchor in `w0Text`. -/
def w0b : Str := lit "\x7d;LG(\"[BackendRegistry] Selected: tmux (running inside tmux session)\");let Y1=TF();return CB=Y1,CR=\x7bbackend:Y1,isNative:!0,needsIt2Setup:!1\x7d,CR;if((await EX(tv,[\"-V\"])).code===0)\x7b\x7d;case\"iterm2\":return IT();x=\"insideTmux=$\x7bTS()\x7d\";"

/-- A guard-passing text whose identifiers extract to `witNames` but
which carries neither user-facing message literal (and none of the
later structural anchors). -/
def w0Text : Str := w0a ++ p1Anchor witNames ++ w0b

/-- Chunk/tail checker list covering the PATCH 1 output on `w0Text`,
buffer width 69 (at least one less than each scanned literal). -/
def pairs0 : List (Str × Str) := [
  (w0a,
   lit "LG(\"[BackendRegistry] Starting backend detection...\");"),
  (lit "function isInsideZellijSync()\x7breturn process.env.ZELLIJ===\"0\"&&!!process.env.ZELLIJ_SESSION_NAME\x7d\n",
   lit "\x7breturn process.env.ZELLIJ===\"0\"&&!!process.env.ZELLIJ_SESSION_NAME\x7d\n"),
  (lit "async function isInsideZellij()\x7breturn isInsideZellijSync()\x7d\n",
   lit "N_NAME\x7d\nasync function isInsideZellij()\x7breturn isInsideZellijSync()\x7d\n"),
  (lit "async function isZellijAvailable()\x7btry\x7breturn(await ",
   lit "ideZellijSync()\x7d\nasync function isZellijAvailable()\x7btry\x7breturn(await "),
  (witNames.execFn,
   lit "eZellijSync()\x7d\nasync function isZellijAvailable()\x7btry\x7breturn(await EX"),
  (lit "(\"which\",[\"zellij\"])).code===0\x7dcatch\x7breturn!1\x7d\x7d",
   lit "()\x7btry\x7breturn(await EX(\"which\",[\"zellij\"])).code===0\x7dcatch\x7breturn!1\x7d\x7d"),
  (lit "\n",
   lit ")\x7btry\x7breturn(await EX(\"which\",[\"zellij\"])).code===0\x7dcatch\x7breturn!1\x7d\x7d\n"),
  (lit "var zellijLockQueue=Promise.resolve();\n",
   lit "])).code===0\x7dcatch\x7breturn!1\x7d\x7d\nvar zellijLockQueue=Promise.resolve();\n"),
  (lit "var zellijBackendRegistered=null;\n",
   lit "zellijLockQueue=Promise.resolve();\nvar zellijBackendRegistered=null;\n"),
  (lit "function registerZellijBackend(A)\x7bzellijBackendRegistered=A\x7d\n",
   lit "d=null;\nfunction registerZellijBackend(A)\x7bzellijBackendRegistered=A\x7d\n"),
  (lit "function createZellijBackend()\x7bif(!zellijBackendRegistered)throw Error(\"ZellijBackend not registered.\");return new zellijBackendRegistered\x7d\n",
   lit "\"ZellijBackend not registered.\");return new zellijBackendRegistered\x7d\n"),
  (lit "class ZellijBackendImpl\x7btype=\"zellij\";displayName=\"Zellij\";supportsHideShow=!1;paneCount=0;_pendingRelease=null;",
   lit "ayName=\"Zellij\";supportsHideShow=!1;paneCount=0;_pendingRelease=null;"),
  (lit "async isAvailable()\x7breturn isInsideZellijSync()||await isZellijAvailable()\x7d",
   lit "isAvailable()\x7breturn isInsideZellijSync()||await isZellijAvailable()\x7d"),
  (lit "async isRunningInside()\x7breturn isInsideZellij()\x7d",
   lit " isZellijAvailable()\x7dasync isRunningInside()\x7breturn isInsideZellij()\x7d"),
  (lit "async createTeammatePaneInSwarmView(A,q)\x7b",
   lit "e()\x7breturn isInsideZellij()\x7dasync createTeammatePaneInSwarmView(A,q)\x7b"),
  (lit "let K,Y=new Promise((z)=>\x7bK=z\x7d),w=zellijLockQueue;zellijLockQueue=Y;await w;",
   lit "=new Promise((z)=>\x7bK=z\x7d),w=zellijLockQueue;zellijLockQueue=Y;await w;"),
  (lit "try\x7blet z=this.paneCount===0;this.paneCount++;",
   lit "lijLockQueue=Y;await w;try\x7blet z=this.paneCount===0;this.paneCount++;"),
  (lit "let H=\"zellij-\"+A+\"-\"+this.paneCount;",
   lit ".paneCount===0;this.paneCount++;let H=\"zellij-\"+A+\"-\"+this.paneCount;"),
  (lit "let $=await ",
   lit "=0;this.paneCount++;let H=\"zellij-\"+A+\"-\"+this.paneCount;let $=await "),
  (witNames.execFn,
   lit ";this.paneCount++;let H=\"zellij-\"+A+\"-\"+this.paneCount;let $=await EX"),
  (lit "(\"zellij\",[\"action\",\"new-pane\",\"--name\",A]);",
   lit ".paneCount;let $=await EX(\"zellij\",[\"action\",\"new-pane\",\"--name\",A]);"),
  (lit "if($.code!==0)\x7bK();throw Error(\"Failed to create Zellij pane for \"+A+\": \"+$.stderr)\x7d",
   lit "K();throw Error(\"Failed to create Zellij pane for \"+A+\": \"+$.stderr)\x7d"),
  (lit "this._pendingRelease=K;",
   lit " to create Zellij pane for \"+A+\": \"+$.stderr)\x7dthis._pendingRelease=K;"),
  (witNames.logFn,
   lit "o create Zellij pane for \"+A+\": \"+$.stderr)\x7dthis._pendingRelease=K;LG"),
  (lit "(\"[ZellijBackend] Created pane for \"+A+\": \"+H+\", isFirst=\"+z);",
   lit "se=K;LG(\"[ZellijBackend] Created pane for \"+A+\": \"+H+\", isFirst=\"+z);"),
  (lit "await new Promise(O=>setTimeout(O,200));",
   lit "r \"+A+\": \"+H+\", isFirst=\"+z);await new Promise(O=>setTimeout(O,200));"),
  (lit "return\x7bpaneId:H,isFirstTeammate:z\x7d",
   lit " new Promise(O=>setTimeout(O,200));return\x7bpaneId:H,isFirstTeammate:z\x7d"),
  (lit "\x7dcatch(z)\x7bif(this._pendingRelease)\x7bthis._pendingRelease();this._pendingRelease=null\x7delse\x7bK()\x7dthrow z\x7d\x7d",
   lit ")\x7bthis._pendingRelease();this._pendingRelease=null\x7delse\x7bK()\x7dthrow z\x7d\x7d"),
  (lit "async sendCommandToPane(A,q,K)\x7b",
   lit "pendingRelease=null\x7delse\x7bK()\x7dthrow z\x7d\x7dasync sendCommandToPane(A,q,K)\x7b"),
  (lit "try\x7blet Y=await ",
   lit "ull\x7delse\x7bK()\x7dthrow z\x7d\x7dasync sendCommandToPane(A,q,K)\x7btry\x7blet Y=await "),
  (witNames.execFn,
   lit "l\x7delse\x7bK()\x7dthrow z\x7d\x7dasync sendCommandToPane(A,q,K)\x7btry\x7blet Y=await EX"),
  (lit "(\"zellij\",[\"action\",\"write-chars\",q]);",
   lit "oPane(A,q,K)\x7btry\x7blet Y=await EX(\"zellij\",[\"action\",\"write-chars\",q]);"),
  (lit "if(Y.code!==0)throw Error(\"Failed to write to Zellij pane \"+A+\": \"+Y.stderr);",
   lit "e!==0)throw Error(\"Failed to write to Zellij pane \"+A+\": \"+Y.stderr);"),
  (lit "let z=await ",
   lit "Error(\"Failed to write to Zellij pane \"+A+\": \"+Y.stderr);let z=await "),
  (witNames.execFn,
   lit "ror(\"Failed to write to Zellij pane \"+A+\": \"+Y.stderr);let z=await EX"),
  (lit "(\"zellij\",[\"action\",\"write\",\"13\"]);",
   lit " \"+A+\": \"+Y.stderr);let z=await EX(\"zellij\",[\"action\",\"write\",\"13\"]);"),
  (lit "if(z.code!==0)throw Error(\"Failed to send Enter to Zellij pane \"+A+\": \"+z.stderr);",
   lit ")throw Error(\"Failed to send Enter to Zellij pane \"+A+\": \"+z.stderr);"),
  (witNames.logFn,
   lit "hrow Error(\"Failed to send Enter to Zellij pane \"+A+\": \"+z.stderr);LG"),
  (lit "(\"[ZellijBackend] Sent command to pane \"+A)",
   lit "pane \"+A+\": \"+z.stderr);LG(\"[ZellijBackend] Sent command to pane \"+A)"),
  (lit "\x7dfinally\x7bif(this._pendingRelease)\x7bthis._pendingRelease();this._pendingRelease=null\x7d\x7d\x7d",
   lit "._pendingRelease)\x7bthis._pendingRelease();this._pendingRelease=null\x7d\x7d\x7d"),
  (lit "async setPaneBorderColor(A,q,K)\x7b\x7d",
   lit "lease();this._pendingRelease=null\x7d\x7d\x7dasync setPaneBorderColor(A,q,K)\x7b\x7d"),
  (lit "async setPaneTitle(A,q,K,Y)\x7b\x7d",
   lit "null\x7d\x7d\x7dasync setPaneBorderColor(A,q,K)\x7b\x7dasync setPaneTitle(A,q,K,Y)\x7b\x7d"),
  (lit "async enablePaneBorderStatus(A,q)\x7b\x7d",
   lit ",K)\x7b\x7dasync setPaneTitle(A,q,K,Y)\x7b\x7dasync enablePaneBorderStatus(A,q)\x7b\x7d"),
  (lit "async rebalancePanes(A,q)\x7b",
   lit "q,K,Y)\x7b\x7dasync enablePaneBorderStatus(A,q)\x7b\x7dasync rebalancePanes(A,q)\x7b"),
  (witNames.logFn,
   lit "K,Y)\x7b\x7dasync enablePaneBorderStatus(A,q)\x7b\x7dasync rebalancePanes(A,q)\x7bLG"),
  (lit "(\"[ZellijBackend] rebalancePanes: no-op\")\x7d",
   lit "sync rebalancePanes(A,q)\x7bLG(\"[ZellijBackend] rebalancePanes: no-op\")\x7d"),
  (lit "async killPane(A,q)\x7b",
   lit "A,q)\x7bLG(\"[ZellijBackend] rebalancePanes: no-op\")\x7dasync killPane(A,q)\x7b"),
  (witNames.logFn,
   lit "q)\x7bLG(\"[ZellijBackend] rebalancePanes: no-op\")\x7dasync killPane(A,q)\x7bLG"),
  (lit "(\"[ZellijBackend] killPane \"+A+\": best-effort\");return!0\x7d",
   lit "Pane(A,q)\x7bLG(\"[ZellijBackend] killPane \"+A+\": best-effort\");return!0\x7d"),
  (lit "async hidePane(A,q)\x7breturn!1\x7d",
   lit " killPane \"+A+\": best-effort\");return!0\x7dasync hidePane(A,q)\x7breturn!1\x7d"),
  (lit "async showPane(A,q,K)\x7breturn!1\x7d\x7d\n",
   lit "turn!0\x7dasync hidePane(A,q)\x7breturn!1\x7dasync showPane(A,q,K)\x7breturn!1\x7d\x7d\n"),
  (lit "registerZellijBackend(ZellijBackendImpl);",
   lit " showPane(A,q,K)\x7breturn!1\x7d\x7d\nregisterZellijBackend(ZellijBackendImpl);"),
  (lit "\n",
   lit "showPane(A,q,K)\x7breturn!1\x7d\x7d\nregisterZellijBackend(ZellijBackendImpl);\n"),
  (p1Anchor witNames,
   lit "rn!1\x7d\x7d\nregisterZellijBackend(ZellijBackendImpl);\nclass TB\x7btype=\"tmux\""),
  (w0b,
   lit "[\"-V\"])).code===0)\x7b\x7d;case\"iterm2\":return IT();x=\"insideTmux=$\x7bTS()\x7d\";")]

/-! ### Characterization of the string primitives -/

theorem splitFirst_eq_some {f s a b : Str} (h : splitFirst f s = some (a, b)) :
    s = a ++ f ++ b := by
  induction s generalizing a b with
  | nil =>
    by_cases hf : f.isEmpty <;> simp [splitFirst, hf] at h
    obtain ⟨rfl, rfl⟩ := h
    simp [List.isEmpty_iff.mp hf]
  | cons c rest ih =>
    by_cases hp : f.isPrefixOf (c :: rest)
    · simp [splitFirst, hp] at h
      obtain ⟨rfl, rfl⟩ := h
      have hpre : f <+: c :: rest := List.isPrefixOf_iff_prefix.mp hp
      obtain ⟨t, ht⟩ := hpre
      have hdrop : (c :: rest).drop f.length = t := by
        rw [← ht, List.drop_append_eq_append_drop, List.drop_length]
        simp
      rw [hdrop, List.nil_append, ht]
    · simp only [splitFirst, hp, Bool.false_eq_true, if_false] at h
      cases hsp : splitFirst f rest with
      | none => rw [hsp] at h; simp at h
      | some p =>
        obtain ⟨a', b'⟩ := p
        rw [hsp] at h
        simp at h
        obtain ⟨rfl, rfl⟩ := h
        have := ih hsp
        simp [this]

theorem splitFirst_some_min {f s a b : Str} (h : splitFirst f s = some (a, b)) :
    ∀ a' b', s = a' ++ f ++ b' → a.length ≤ a'.length := by
  induction s generalizing a b with
  | nil =>
    intro a' b' _
    by_cases hf : f.isEmpty <;> simp [splitFirst, hf] at h
    obtain ⟨rfl, rfl⟩ := h
    simp
  | cons c rest ih =>
    intro a' b' heq
    by_cases hp : f.isPrefixOf (c :: rest)
    · simp [splitFirst, hp] at h
      obtain ⟨rfl, rfl⟩ := h
      simp
    · simp only [splitFirst, hp, Bool.false_eq_true, if_false] at h
      cases hsp : splitFirst f rest with
      | none => rw [hsp] at h; simp at h
      | some p =>
        obtain ⟨a₀, b₀⟩ := p
        rw [hsp] at h
        simp at h
        obtain ⟨rfl, rfl⟩ := h
        match a' with
        | [] =>
          exfalso
          apply hp
          apply List.isPrefixOf_iff_prefix.mpr
          exact ⟨b', by simpa using heq.symm⟩
        | c' :: a'' =>
          simp only [List.cons_append, List.cons.injEq] at heq
          have := ih hsp a'' b' heq.2
          simpa using this

theorem splitFirst_isSome_iff {f s : Str} : (splitFirst f s).isSome = true ↔ f <:+: s := by
  induction s with
  | nil =>
    constructor
    · intro h
      by_cases hf : f.isEmpty
      · rw [List.infix_nil]
        exact List.isEmpty_iff.mp hf
      · simp [splitFirst, hf] at h
    · intro h
      have : f = [] := List.infix_nil.mp h
      subst this
      simp [splitFirst]
  | cons c rest ih =>
    by_cases hp : f.isPrefixOf (c :: rest)
    · simp [splitFirst, hp]
      exact (List.isPrefixOf_iff_prefix.mp hp).isInfix
    · simp only [splitFirst, hp, Bool.false_eq_true, if_false]
      rw [List.infix_cons_iff]
      have hnp : ¬ f <+: c :: rest := fun hc => hp (List.isPrefixOf_iff_prefix.mpr hc)
      simp only [hnp, false_or]
      rw [← ih]
      cases hsp : splitFirst f rest with
      | none => simp
      | some p => obtain ⟨a, b⟩ := p; simp

theorem splitFirst_none_iff {f s : Str} : splitFirst f s = none ↔ ¬ f <:+: s := by
  rw [← splitFirst_isSome_iff]
  cases splitFirst f s <;> simp

theorem jsIncludes_iff {s f : Str} : jsIncludes s f = true ↔ f <:+: s :=
  splitFirst_isSome_iff

theorem jsIncludes_false_iff {s f : Str} : jsIncludes s f = false ↔ ¬ f <:+: s := by
  rw [← jsIncludes_iff]
  cases h : jsIncludes s f <;> simp

/-! ### Small order facts about prefixes and suffixes -/

theorem prefixTotal {l₁ l₂ l₃ : Str} (h₁ : l₁ <+: l₃) (h₂ : l₂ <+: l₃) :
    l₁ <+: l₂ ∨ l₂ <+: l₁ := List.prefix_or_prefix_of_prefix h₁ h₂

theorem suffixTotal {l₁ l₂ l₃ : Str} (h₁ : l₁ <:+ l₃) (h₂ : l₂ <:+ l₃) :
    l₁ <:+ l₂ ∨ l₂ <:+ l₁ := List.suffix_or_suffix_of_suffix h₁ h₂

theorem takeIsPre (n : Nat) (l : Str) : l.take n <+: l := List.take_prefix n l

theorem prefix_append_cases {x y z : Str} (h : x <+: y ++ z) : x <+: y ∨ y <+: x := by
  have hy : y <+: y ++ z := List.prefix_append y z
  exact prefixTotal h hy

theorem suffix_append_cases {x y z : Str} (h : x <:+ y ++ z) : x <:+ z ∨ z <:+ x := by
  have hz : z <:+ y ++ z := List.suffix_append y z
  exact suffixTotal h hz

theorem suffix_of_suffix_le {x y z : Str} (h₁ : x <:+ z) (h₂ : y <:+ z)
    (hl : x.length ≤ y.length) : x <:+ y := by
  rcases suffixTotal h₁ h₂ with h | h
  · exact h
  · have := List.IsSuffix.eq_of_length_le h hl
    rw [← this]

theorem prefix_of_prefix_le {x y z : Str} (h₁ : x <+: z) (h₂ : y <+: z)
    (hl : x.length ≤ y.length) : x <+: y := by
  rcases prefixTotal h₁ h₂ with h | h
  · exact h
  · have heq := List.IsPrefix.eq_of_length h (le_antisymm h.length_le hl)
    rw [heq]

theorem infix_of_mid (u T v : Str) : T <:+: u ++ T ++ v := ⟨u, v, rfl⟩

theorem infix_append_left {T u : Str} (v : Str) (h : T <:+: u) : T <:+: u ++ v := by
  obtain ⟨x, y, hxy⟩ := h
  exact ⟨x, y ++ v, by rw [← hxy]; simp⟩

theorem infix_append_right {T v : Str} (u : Str) (h : T <:+: v) : T <:+: u ++ v := by
  obtain ⟨x, y, hxy⟩ := h
  exact ⟨u ++ x, y, by rw [← hxy]; simp⟩

theorem not_infix_of_longer {u v : Str} (h : v.length < u.length) : ¬ u <:+: v :=
  fun hc => absurd hc.length_le (by omega)

theorem not_infix_of_mem_not_mem {c : Char} {u v : Str} (hm : c ∈ u) (hn : c ∉ v) :
    ¬ u <:+: v := fun hc => hn (hc.subset hm)

/-! ### Decomposing an occurrence across an append -/

theorem prefix_append_of_le {T u v : Str} (h : T <+: u ++ v) (hl : T.length ≤ u.length) :
    T <+: u := by
  have hu : u <+: u ++ v := List.prefix_append u v
  exact prefix_of_prefix_le h hu hl

theorem infix_append_cases {T u v : Str} (h : T <:+: u ++ v) :
    T <:+: u ∨ T <:+: v ∨
      ∃ j, 0 < j ∧ j < T.length ∧ T.take j <:+ u ∧ T.drop j <+: v := by
  induction u with
  | nil => right; left; simpa using h
  | cons c u' ih =>
    rw [List.cons_append, List.infix_cons_iff] at h
    rcases h with hpre | hrest
    · rw [← List.cons_append] at hpre
      by_cases hl : T.length ≤ (c :: u').length
      · left
        exact (prefix_append_of_le hpre hl).isInfix
      · right; right
        push_neg at hl
        have hu : (c :: u') <+: T := by
          have hc : (c :: u') <+: (c :: u') ++ v := List.prefix_append _ _
          exact prefix_of_prefix_le hc hpre (by omega)
        refine ⟨(c :: u').length, by simp, hl, ?_, ?_⟩
        · obtain ⟨t, ht⟩ := hu
          have : T.take (c :: u').length = c :: u' := by
            rw [← ht, List.take_append_eq_append_take, List.take_length]
            simp
          rw [this]
        · obtain ⟨t, ht⟩ := hu
          have hTd : T.drop (c :: u').length = t := by
            rw [← ht, List.drop_append_eq_append_drop, List.drop_length]
            simp
          obtain ⟨w, hw⟩ := hpre
          rw [← ht] at hw
          rw [List.append_assoc] at hw
          have hv : t ++ w = v := List.append_cancel_left hw
          rw [hTd]
          exact ⟨w, hv⟩
    · rcases ih hrest with h1 | h2 | h3
      · left; exact List.infix_cons h1
      · right; left; exact h2
      · right; right
        obtain ⟨j, hj0, hjl, hsu, hpv⟩ := h3
        exact ⟨j, hj0, hjl, hsu.trans (List.suffix_cons c u'), hpv⟩

/-! ### Preservation and non-creation of tokens across textual edits -/

theorem infix_replaceSeg {T a b find repl : Str}
    (h : T <:+: a ++ find ++ b)
    (hTf : T <:+: find → T <:+: repl)
    (hD : ∀ j, 0 < j → j < T.length → ¬ (T.drop j <+: find))
    (hE : ∀ j, 0 < j → j < T.length → ¬ (T.take j <:+ find))
    (hF : ¬ find <:+: T) :
    T <:+: a ++ repl ++ b := by
  rw [List.append_assoc] at h
  rcases infix_append_cases h with hA | hBC | hStr
  · rw [List.append_assoc]
    exact infix_append_left _ hA
  · rcases infix_append_cases hBC with hf | hb | hStr2
    · obtain ⟨x, y, hxy⟩ := hTf hf
      exact ⟨a ++ x, y ++ b, by rw [← hxy]; simp⟩
    · exact infix_append_right _ hb
    · obtain ⟨j, hj0, hjl, hsu, _⟩ := hStr2
      exact absurd hsu (hE j hj0 hjl)
  · obtain ⟨j, hj0, hjl, _, hpv⟩ := hStr
    rcases prefix_append_cases hpv with hp | hp
    · exact absurd hp (hD j hj0 hjl)
    · exact absurd (hp.isInfix.trans (List.drop_suffix j T).isInfix) hF

theorem infix_insert_marker {T u v ins M : Str}
    (h : T <:+: u ++ v) (hM : M <+: v)
    (hc : ∀ j, 0 < j → j < T.length → ¬ (T.drop j <+: M) ∧ ¬ (M <+: T.drop j)) :
    T <:+: u ++ ins ++ v := by
  rcases infix_append_cases h with hA | hB | hStr
  · rw [List.append_assoc]
    exact infix_append_left _ hA
  · exact infix_append_right _ hB
  · obtain ⟨j, hj0, hjl, _, hpv⟩ := hStr
    rcases prefixTotal hpv hM with hp | hp
    · exact absurd hp (hc j hj0 hjl).1
    · exact absurd hp (hc j hj0 hjl).2

theorem not_infix_insert {T u v ins : Str}
    (h : ¬ T <:+: u ++ v)
    (hins : ¬ T <:+: ins)
    (hL : ∀ j, 0 < j → j < T.length → ¬ (T.drop j <+: ins ++ v))
    (hR : ∀ j, 0 < j → j < T.length → ¬ (T.take j <:+ ins)) :
    ¬ T <:+: u ++ ins ++ v := by
  intro hc
  rw [List.append_assoc] at hc
  rcases infix_append_cases hc with hA | hBC | hStr
  · exact h (infix_append_left _ hA)
  · rcases infix_append_cases hBC with h1 | h2 | h3
    · exact hins h1
    · exact h (infix_append_right _ h2)
    · obtain ⟨j, hj0, hjl, hsu, _⟩ := h3
      exact hR j hj0 hjl hsu
  · obtain ⟨j, hj0, hjl, _, hpv⟩ := hStr
    exact hL j hj0 hjl hpv

theorem hL_of_head {T cH rest : Str}
    (hc : ∀ j, 0 < j → j < T.length → ¬ (T.drop j <+: cH) ∧ ¬ (cH <+: T.drop j)) :
    ∀ j, 0 < j → j < T.length → ¬ (T.drop j <+: cH ++ rest) := by
  intro j h0 hl hp
  rcases prefix_append_cases hp with h | h
  · exact (hc j h0 hl).1 h
  · exact (hc j h0 hl).2 h

theorem hL2_of_head {T cH rest : Str}
    (hc : ∀ j, 0 < j → j < T.length → ¬ (T.drop j <+: cH) ∧ ¬ (cH <+: T.drop j)) :
    ∀ j, 0 < j → j < T.length → ¬ (cH ++ rest <+: T.drop j) := by
  intro j h0 hl hp
  exact (hc j h0 hl).2 ((List.prefix_append cH rest).trans hp)

theorem hR_of_tail {T rest d : Str}
    (hc : ∀ j, 0 < j → j < T.length → ¬ (T.take j <:+ d) ∧ ¬ (d <:+ T.take j)) :
    ∀ j, 0 < j → j < T.length → ¬ (T.take j <:+ rest ++ d) := by
  intro j h0 hl hp
  rcases suffix_append_cases hp with h | h
  · exact (hc j h0 hl).1 h
  · exact (hc j h0 hl).2 h

/-! ### Bounded-buffer scanning of long concatenations -/

theorem takeLast_suffix (n : Nat) (l : Str) : takeLast n l <:+ l := List.drop_suffix _ l

theorem takeLast_of_le {n : Nat} {l : Str} (h : l.length ≤ n) : takeLast n l = l := by
  unfold takeLast
  rw [Nat.sub_eq_zero_of_le h, List.drop_zero]

theorem takeLast_length (n : Nat) (l : Str) : (takeLast n l).length = min n l.length := by
  unfold takeLast
  rw [List.length_drop]
  omega

theorem suffix_takeLast {x u : Str} {n : Nat} (h : x <:+ u) (hl : x.length ≤ n) :
    x <:+ takeLast n u := by
  apply suffix_of_suffix_le h (takeLast_suffix n u)
  rw [takeLast_length]
  have := h.length_le
  omega

theorem prefix_take {x v : Str} {n : Nat} (h : x <+: v) (hl : x.length ≤ n) :
    x <+: v.take n := by
  obtain ⟨t, ht⟩ := h
  refine ⟨t.take (n - x.length), ?_⟩
  rw [← ht, List.take_append_eq_append_take, List.take_of_length_le hl]

theorem append_suffix_append {x y z : Str} (h : x <:+ y) : x ++ z <:+ y ++ z := by
  obtain ⟨s, hs⟩ := h
  exact ⟨s, by rw [← hs]; simp⟩

theorem takeLast_append_takeLast (w : Nat) (u z : Str) :
    takeLast w (u ++ z) = takeLast w (takeLast w u ++ z) := by
  by_cases hl : u.length ≤ w
  · rw [takeLast_of_le hl]
  · push_neg at hl
    have h1 : takeLast w (u ++ z) <:+ u ++ z := takeLast_suffix _ _
    have h2 : takeLast w (takeLast w u ++ z) <:+ u ++ z := by
      apply List.IsSuffix.trans (takeLast_suffix _ _)
      exact append_suffix_append (takeLast_suffix w u)
    have hlen : (takeLast w (u ++ z)).length = (takeLast w (takeLast w u ++ z)).length := by
      rw [takeLast_length, takeLast_length, List.length_append, List.length_append,
        takeLast_length]
      omega
    rcases suffixTotal h1 h2 with h | h
    · exact List.IsSuffix.eq_of_length_le h (by omega)
    · exact (List.IsSuffix.eq_of_length_le h (by omega)).symm

theorem noInfix_snoc {f u z : Str} {w : Nat} (hw : f.length ≤ w + 1)
    (hu : ¬ f <:+: u) (hz : ¬ f <:+: takeLast w u ++ z) :
    ¬ f <:+: u ++ z := by
  intro hc
  rcases infix_append_cases hc with hA | hB | hStr
  · exact hu hA
  · exact hz (infix_append_right _ hB)
  · obtain ⟨j, hj0, hjl, hsu, hpv⟩ := hStr
    have h1 : f.take j <:+ takeLast w u := by
      apply suffix_takeLast hsu
      rw [List.length_take]
      omega
    obtain ⟨s, hs⟩ := h1
    obtain ⟨t, ht⟩ := hpv
    apply hz
    refine ⟨s, t, ?_⟩
    rw [← hs, ← ht, List.append_assoc, List.append_assoc, ← List.append_assoc (f.take j),
      List.take_append_drop]

theorem chunksScan_sound {f : Str} {w : Nat} (hw : f.length ≤ w + 1) :
    ∀ (pairs : List (Str × Str)) (u tb : Str),
      tb = takeLast w u → ¬ f <:+: u →
      tailsOkB w tb pairs = true → hitsFreeB f tb pairs = true →
      ¬ f <:+: u ++ chunksText pairs ∧
        finalTail tb pairs = takeLast w (u ++ chunksText pairs) := by
  intro pairs
  induction pairs with
  | nil =>
    intro u tb htb hu _ _
    constructor
    · simpa [chunksText] using hu
    · simpa [chunksText, finalTail] using htb
  | cons p rest ih =>
    obtain ⟨z, tb'⟩ := p
    intro u tb htb hu ht hh
    rw [tailsOkB, Bool.and_eq_true, beq_iff_eq] at ht
    obtain ⟨htb', ht'⟩ := ht
    rw [hitsFreeB, Bool.and_eq_true, Bool.not_eq_true'] at hh
    obtain ⟨hz, hh'⟩ := hh
    have hz' : ¬ f <:+: tb ++ z := jsIncludes_false_iff.mp hz
    rw [htb] at hz'
    have hnew : ¬ f <:+: u ++ z := noInfix_snoc hw hu hz'
    have htb'' : tb' = takeLast w (u ++ z) := by
      rw [htb', htb, ← takeLast_append_takeLast]
    obtain ⟨hres, htail⟩ := ih (u ++ z) tb' htb'' hnew ht' hh'
    constructor
    · intro hc
      apply hres
      rw [chunksText] at hc
      rw [← List.append_assoc] at hc
      exact hc
    · rw [finalTail, htail, chunksText, List.append_assoc]

/-! ### Structure of the individual edit steps -/

theorem step1_warnings (ns : Names) (c : Str) : (step1 ns c).warnings = [] := by
  unfold step1
  cases h : splitFirst (p1Anchor ns) c with
  | none => rfl
  | some p => obtain ⟨a, b⟩ := p; rfl

theorem step1_cases (ns : Names) (c : Str) :
    ((step1 ns c).applied = [lbl1ok] ∧ (step1 ns c).failed = []) ∨
      ((step1 ns c).applied = [] ∧ (step1 ns c).failed = [lbl1fail] ∧
        (step1 ns c).code = c) := by
  unfold step1
  cases h : splitFirst (p1Anchor ns) c with
  | none => right; exact ⟨rfl, rfl, rfl⟩
  | some p => obtain ⟨a, b⟩ := p; left; exact ⟨rfl, rfl⟩

theorem step2_none {ns : Names} {c : Str} (h : splitFirst cascadeAnchor c = none) :
    step2 ns c = ⟨c, [], [lbl2failAnchor], []⟩ := by
  simp [step2, h]

theorem step2_noStart {ns : Names} {c a b : Str}
    (h : splitFirst cascadeAnchor c = some (a, b))
    (h2 : firstLetK (a.drop (a.length - min a.length 200)) = none) :
    step2 ns c = ⟨c, [], [lbl2failStart], []⟩ := by
  simp [step2, h, h2]

theorem step2_some {ns : Names} {c a b : Str} {j : Nat}
    (h : splitFirst cascadeAnchor c = some (a, b))
    (h2 : firstLetK (a.drop (a.length - min a.length 200)) = some j) :
    step2 ns c =
      ⟨c.take (a.length - min a.length 200 + j) ++ zellijCheck ns ++
         c.drop (a.length - min a.length 200 + j), [lbl2ok], [], []⟩ := by
  simp [step2, h, h2]

theorem step2_warnings (ns : Names) (c : Str) : (step2 ns c).warnings = [] := by
  cases h : splitFirst cascadeAnchor c with
  | none => rw [step2_none h]
  | some p =>
    obtain ⟨a, b⟩ := p
    cases h2 : firstLetK (a.drop (a.length - min a.length 200)) with
    | none => rw [step2_noStart h h2]
    | some j => rw [step2_some h h2]

theorem step2_cases (ns : Names) (c : Str) :
    ((step2 ns c).applied = [lbl2ok] ∧ (step2 ns c).failed = []) ∨
      ((step2 ns c).applied = [] ∧
        ((step2 ns c).failed = [lbl2failAnchor] ∨ (step2 ns c).failed = [lbl2failStart]) ∧
        (step2 ns c).code = c) := by
  cases h : splitFirst cascadeAnchor c with
  | none => right; rw [step2_none h]; exact ⟨rfl, Or.inl rfl, rfl⟩
  | some p =>
    obtain ⟨a, b⟩ := p
    cases h2 : firstLetK (a.drop (a.length - min a.length 200)) with
    | none => right; rw [step2_noStart h h2]; exact ⟨rfl, Or.inr rfl, rfl⟩
    | some j => left; rw [step2_some h h2]; exact ⟨rfl, rfl⟩

theorem step3_warnings (ns : Names) (c : Str) : (step3 ns c).warnings = [] := by
  unfold step3
  split <;> rfl

theorem step3_cases (ns : Names) (c : Str) :
    ((step3 ns c).applied = [lbl3ok] ∧ (step3 ns c).failed = []) ∨
      ((step3 ns c).applied = [] ∧ (step3 ns c).failed = [lbl3fail] ∧
        (step3 ns c).code = c) := by
  unfold step3
  split
  · left; exact ⟨rfl, rfl⟩
  · right; exact ⟨rfl, rfl, rfl⟩

theorem step4_warnings (ns : Names) (c : Str) : (step4 ns c).warnings = [] := by
  unfold step4
  split <;> rfl

theorem step4_cases (ns : Names) (c : Str) :
    ((step4 ns c).applied = [lbl4ok] ∧ (step4 ns c).failed = []) ∨
      ((step4 ns c).applied = [] ∧ (step4 ns c).failed = [lbl4fail] ∧
        (step4 ns c).code = c) := by
  unfold step4
  split
  · left; exact ⟨rfl, rfl⟩
  · right; exact ⟨rfl, rfl, rfl⟩

theorem step6_warnings (ns : Names) (c : Str) : (step6 ns c).warnings = [] := by
  unfold step6
  split <;> rfl

theorem step6_cases (ns : Names) (c : Str) :
    ((step6 ns c).applied = [lbl6ok] ∧ (step6 ns c).failed = []) ∨
      ((step6 ns c).applied = [] ∧ (step6 ns c).failed = [lbl6fail] ∧
        (step6 ns c).code = c) := by
  unfold step6
  split
  · left; exact ⟨rfl, rfl⟩
  · right; exact ⟨rfl, rfl, rfl⟩

theorem msgStep_cases (c : Str) :
    ∃ c' b1 b2,
      msgStep msgPairs c =
        (c', (cond b1 [msgAppliedLabel msgFind1] []) ++ (cond b2 [msgAppliedLabel msgFind2] []),
             (cond b1 [] [msgWarnLabel msgFind1]) ++ (cond b2 [] [msgWarnLabel msgFind2])) := by
  by_cases h1 : jsIncludes c msgFind1
  · by_cases h2 : jsIncludes (replaceWhile msgFind1 msgRepl1 (c.length + 1) c) msgFind2
    · refine ⟨replaceWhile msgFind2 msgRepl2
        ((replaceWhile msgFind1 msgRepl1 (c.length + 1) c).length + 1)
        (replaceWhile msgFind1 msgRepl1 (c.length + 1) c), true, true, ?_⟩
      simp [msgStep, msgPairs, h1, h2]
    · refine ⟨replaceWhile msgFind1 msgRepl1 (c.length + 1) c, true, false, ?_⟩
      simp [msgStep, msgPairs, h1, h2]
  · by_cases h2 : jsIncludes c msgFind2
    · refine ⟨replaceWhile msgFind2 msgRepl2 (c.length + 1) c, false, true, ?_⟩
      simp [msgStep, msgPairs, h1, h2]
    · refine ⟨c, false, false, ?_⟩
      simp [msgStep, msgPairs, h1, h2]

/-! ### Structure of the composed edit phase and of the top-level patcher -/

theorem runSteps_applied (ns : Names) (c : Str) :
    (runSteps ns c).applied =
      (step1 ns c).applied ++ (step2 ns (step1 ns c).code).applied ++
      (step3 ns (step2 ns (step1 ns c).code).code).applied ++
      (step4 ns (step3 ns (step2 ns (step1 ns c).code).code).code).applied ++
      (msgStep msgPairs (step4 ns (step3 ns (step2 ns (step1 ns c).code).code).code).code).2.1 ++
      (step6 ns (msgStep msgPairs (step4 ns (step3 ns (step2 ns (step1 ns c).code).code).code).code).1).applied := rfl

theorem runSteps_failed (ns : Names) (c : Str) :
    (runSteps ns c).failed =
      (step1 ns c).failed ++ (step2 ns (step1 ns c).code).failed ++
      (step3 ns (step2 ns (step1 ns c).code).code).failed ++
      (step4 ns (step3 ns (step2 ns (step1 ns c).code).code).code).failed ++
      (step6 ns (msgStep msgPairs (step4 ns (step3 ns (step2 ns (step1 ns c).code).code).code).code).1).failed := rfl

theorem runSteps_warnings (ns : Names) (c : Str) :
    (runSteps ns c).warnings =
      (msgStep msgPairs (step4 ns (step3 ns (step2 ns (step1 ns c).code).code).code).code).2.2 := rfl

theorem runSteps_code (ns : Names) (c : Str) :
    (runSteps ns c).code =
      (step6 ns (msgStep msgPairs (step4 ns (step3 ns (step2 ns (step1 ns c).code).code).code).code).1).code := rfl

theorem patchCliSource_notRecognized {code : Str}
    (h : jsIncludes code (lit "BackendRegistry") = false ∨
      jsIncludes code (lit "type=\"tmux\"") = false) :
    patchCliSource code = notRecognizedResult := by
  rcases h with h | h <;> simp [patchCliSource, h]

theorem patchCliSource_alreadyPatched {code : Str}
    (h1 : jsIncludes code (lit "BackendRegistry") = true)
    (h2 : jsIncludes code (lit "type=\"tmux\"") = true)
    (h3 : alreadyPatchedCheck code = true) :
    patchCliSource code = alreadyPatchedResult := by
  simp [patchCliSource, h1, h2, h3]

theorem patchCliSource_extractionFailed {code : Str}
    (h1 : jsIncludes code (lit "BackendRegistry") = true)
    (h2 : jsIncludes code (lit "type=\"tmux\"") = true)
    (h3 : alreadyPatchedCheck code = false)
    (hx : extractMinifiedNames code = none) :
    patchCliSource code = extractionFailedResult := by
  simp [patchCliSource, h1, h2, h3, hx]

theorem patchCliSource_main {code : Str} {ns : Names}
    (h1 : jsIncludes code (lit "BackendRegistry") = true)
    (h2 : jsIncludes code (lit "type=\"tmux\"") = true)
    (h3 : alreadyPatchedCheck code = false)
    (hx : extractMinifiedNames code = some ns) :
    patchCliSource code =
      ⟨(runSteps ns code).failed.length == 0,
       if (runSteps ns code).failed.length == 0 then some (runSteps ns code).code else none,
       (runSteps ns code).applied, (runSteps ns code).failed,
       (runSteps ns code).warnings⟩ := by
  simp [patchCliSource, h1, h2, h3, hx]

theorem step1_len (ns : Names) (c : Str) :
    (step1 ns c).applied.length + (step1 ns c).failed.length = 1 := by
  rcases step1_cases ns c with ⟨ha, hf⟩ | ⟨ha, hf, _⟩ <;> simp [ha, hf]

theorem step2_len (ns : Names) (c : Str) :
    (step2 ns c).applied.length + (step2 ns c).failed.length = 1 := by
  rcases step2_cases ns c with ⟨ha, hf⟩ | ⟨ha, hf | hf, _⟩ <;> simp [ha, hf]

theorem step3_len (ns : Names) (c : Str) :
    (step3 ns c).applied.length + (step3 ns c).failed.length = 1 := by
  rcases step3_cases ns c with ⟨ha, hf⟩ | ⟨ha, hf, _⟩ <;> simp [ha, hf]

theorem step4_len (ns : Names) (c : Str) :
    (step4 ns c).applied.length + (step4 ns c).failed.length = 1 := by
  rcases step4_cases ns c with ⟨ha, hf⟩ | ⟨ha, hf, _⟩ <;> simp [ha, hf]

theorem step6_len (ns : Names) (c : Str) :
    (step6 ns c).applied.length + (step6 ns c).failed.length = 1 := by
  rcases step6_cases ns c with ⟨ha, hf⟩ | ⟨ha, hf, _⟩ <;> simp [ha, hf]

theorem msgStep_len (c : Str) :
    (msgStep msgPairs c).2.1.length + (msgStep msgPairs c).2.2.length = 2 := by
  obtain ⟨c', b1, b2, h⟩ := msgStep_cases c
  rw [h]
  cases b1 <;> cases b2 <;> simp

theorem runSteps_counts (ns : Names) (c : Str) :
    (runSteps ns c).applied.length + (runSteps ns c).failed.length +
      (runSteps ns c).warnings.length = 7 := by
  rw [runSteps_applied, runSteps_failed, runSteps_warnings]
  have e1 := step1_len ns c
  have e2 := step2_len ns (step1 ns c).code
  have e3 := step3_len ns (step2 ns (step1 ns c).code).code
  have e4 := step4_len ns (step3 ns (step2 ns (step1 ns c).code).code).code
  have em := msgStep_len (step4 ns (step3 ns (step2 ns (step1 ns c).code).code).code).code
  have e6 := step6_len ns
    (msgStep msgPairs (step4 ns (step3 ns (step2 ns (step1 ns c).code).code).code).code).1
  simp only [List.length_append]
  omega

/-- C2: for every input string, the report satisfies `success = true` iff
`failedPatches` is empty, and `patchedSource` is non-null iff `success`. -/
theorem C2_report_invariants (source : Str) :
    ((patchCliSource source).success = true ↔ (patchCliSource source).failedPatches = []) ∧
    (patchCliSource source).patchedSource.isSome = (patchCliSource source).success := by
  by_cases h1 : jsIncludes source (lit "BackendRegistry") = true
  case neg =>
    rw [patchCliSource_notRecognized (Or.inl (by simpa using h1))]
    simp [notRecognizedResult]
  by_cases h2 : jsIncludes source (lit "type=\"tmux\"") = true
  case neg =>
    rw [patchCliSource_notRecognized (Or.inr (by simpa using h2))]
    simp [notRecognizedResult]
  by_cases h3 : alreadyPatchedCheck source = true
  case pos =>
    rw [patchCliSource_alreadyPatched h1 h2 h3]
    simp [alreadyPatchedResult]
  cases hx : extractMinifiedNames source with
  | none =>
    rw [patchCliSource_extractionFailed h1 h2 (by simpa using h3) hx]
    simp [extractionFailedResult]
  | some ns =>
    rw [patchCliSource_main h1 h2 (by simpa using h3) hx]
    cases hf : ((runSteps ns source).failed.length == 0) with
    | false =>
      simp only [hf]
      have hne : (runSteps ns source).failed ≠ [] := by
        intro hc
        rw [hc] at hf
        simp at hf
      constructor
      · simp [hne]
      · simp
    | true =>
      simp only [hf]
      have he : (runSteps ns source).failed = [] := by
        have h := hf
        simp only [beq_iff_eq] at h
        exact List.length_eq_zero.mp h
      constructor
      · simp [he]
      · simp

/-- C3 counterexample: on a text carrying only the injected signature token
(no recognition markers), the patcher reports NotRecognized, not
AlreadyPatched — the recognition check runs first, contradicting the claimed
precedence. -/
theorem C3_counterexample :
    jsIncludes sigOnlyText (lit "ZellijBackendImpl") = true ∧
    jsIncludes sigOnlyText (lit "BackendRegistry") = false ∧
    patchCliSource sigOnlyText = notRecognizedResult ∧
    notRecognizedResult ≠ alreadyPatchedResult := by
  refine ⟨by decide, by decide, ?_, by decide⟩
  exact patchCliSource_notRecognized (Or.inl (by decide))

/-- C3 (amended): AlreadyPatched takes precedence only among inputs that
carry the baseline recognition markers; for every input with both markers
and a signature token, the patcher reports AlreadyPatched. -/
theorem C3_amended_precedence (code : Str)
    (h1 : jsIncludes code (lit "BackendRegistry") = true)
    (h2 : jsIncludes code (lit "type=\"tmux\"") = true)
    (h3 : alreadyPatchedCheck code = true) :
    patchCliSource code = alreadyPatchedResult ∧
      alreadyPatchedResult ≠ notRecognizedResult :=
  ⟨patchCliSource_alreadyPatched h1 h2 h3, by decide⟩

theorem C3_witness :
    patchCliSource sigAndMarkersText = alreadyPatchedResult ∧
      alreadyPatchedResult ≠ notRecognizedResult :=
  C3_amended_precedence sigAndMarkersText (by decide) (by decide) (by decide)

/-- C5: identifier extraction is all-or-nothing — if any one role's pattern
fails to match, `extractMinifiedNames` returns no bundle at all and
`patchCliSource` attempts no edits (no applied patches, no patched
source). -/
theorem C5_extraction_all_or_nothing (code : Str)
    (h : scanFirst tmuxClassAt code = none ∨ scanFirst cascadeAt code = none ∨
      scanFirst execAt code = none ∨ scanFirst iterm2At code = none ∨
      scanFirst logAt code = none ∨ scanFirst tmuxSyncAt code = none) :
    extractMinifiedNames code = none ∧
    (patchCliSource code).appliedPatches = [] ∧
    (patchCliSource code).patchedSource = none := by
  have hx : extractMinifiedNames code = none := by
    cases e1 : scanFirst tmuxClassAt code with
    | none => simp [extractMinifiedNames, e1]
    | some n1 =>
      cases e2 : scanFirst cascadeAt code with
      | none => simp [extractMinifiedNames, e1, e2]
      | some n2 =>
        obtain ⟨n2a, n2b, n2c⟩ := n2
        cases e3 : scanFirst execAt code with
        | none => simp [extractMinifiedNames, e1, e2, e3]
        | some n3 =>
          cases e4 : scanFirst iterm2At code with
          | none => simp [extractMinifiedNames, e1, e2, e3, e4]
          | some n4 =>
            cases e5 : scanFirst logAt code with
            | none => simp [extractMinifiedNames, e1, e2, e3, e4, e5]
            | some n5 =>
              cases e6 : scanFirst tmuxSyncAt code with
              | none => simp [extractMinifiedNames, e1, e2, e3, e4, e5, e6]
              | some n6 =>
                exfalso
                rcases h with h | h | h | h | h | h <;> simp_all
  refine ⟨hx, ?_⟩
  by_cases h1 : jsIncludes code (lit "BackendRegistry") = true
  case neg =>
    rw [patchCliSource_notRecognized (Or.inl (by simpa using h1))]
    exact ⟨rfl, rfl⟩
  by_cases h2 : jsIncludes code (lit "type=\"tmux\"") = true
  case neg =>
    rw [patchCliSource_notRecognized (Or.inr (by simpa using h2))]
    exact ⟨rfl, rfl⟩
  by_cases h3 : alreadyPatchedCheck code = true
  case pos =>
    rw [patchCliSource_alreadyPatched h1 h2 h3]
    exact ⟨rfl, rfl⟩
  rw [patchCliSource_extractionFailed h1 h2 (by simpa using h3) hx]
  exact ⟨rfl, rfl⟩

theorem C5_witness :
    extractMinifiedNames w5Text = none ∧
    (patchCliSource w5Text).appliedPatches = [] ∧
    (patchCliSource w5Text).patchedSource = none :=
  C5_extraction_all_or_nothing w5Text (Or.inr (Or.inl (by decide)))

/-- C6: an input missing either baseline marker gets the NotRecognized
failure report — `success = false`, null `patchedSource` — independently of
anything the extractor would do (the result is the fixed early-return
record). -/
theorem C6_not_recognized (code : Str)
    (h : jsIncludes code (lit "BackendRegistry") = false ∨
      jsIncludes code (lit "type=\"tmux\"") = false) :
    patchCliSource code = notRecognizedResult ∧
    notRecognizedResult.success = false ∧
    notRecognizedResult.patchedSource = none ∧
    notRecognizedResult.appliedPatches = [] :=
  ⟨patchCliSource_notRecognized h, rfl, rfl, rfl⟩

theorem C6_witness :
    patchCliSource w6Text = notRecognizedResult ∧
    notRecognizedResult.success = false ∧
    notRecognizedResult.patchedSource = none ∧
    notRecognizedResult.appliedPatches = [] :=
  C6_not_recognized w6Text (Or.inl (by decide))

/-- C7: each edit whose anchor check fails leaves the working text exactly
as it was (so later edits, which the chain `runSteps` runs on the previous
step's output text, see only the successful earlier edits), and no failure
aborts the run — the composed edit phase always records an outcome for
every one of the seven tracked edits. -/
theorem C7_edit_frame_and_independence (ns : Names) (c : Str) :
    ((step1 ns c).failed ≠ [] → (step1 ns c).code = c) ∧
    ((step2 ns c).failed ≠ [] → (step2 ns c).code = c) ∧
    ((step3 ns c).failed ≠ [] → (step3 ns c).code = c) ∧
    ((step4 ns c).failed ≠ [] → (step4 ns c).code = c) ∧
    ((step6 ns c).failed ≠ [] → (step6 ns c).code = c) ∧
    (runSteps ns c).applied.length + (runSteps ns c).failed.length +
      (runSteps ns c).warnings.length = 7 := by
  refine ⟨?_, ?_, ?_, ?_, ?_, runSteps_counts ns c⟩
  · rcases step1_cases ns c with ⟨_, hf⟩ | ⟨_, _, hc⟩
    · intro hne; exact absurd hf hne
    · intro _; exact hc
  · rcases step2_cases ns c with ⟨_, hf⟩ | ⟨_, _, hc⟩
    · intro hne; exact absurd hf hne
    · intro _; exact hc
  · rcases step3_cases ns c with ⟨_, hf⟩ | ⟨_, _, hc⟩
    · intro hne; exact absurd hf hne
    · intro _; exact hc
  · rcases step4_cases ns c with ⟨_, hf⟩ | ⟨_, _, hc⟩
    · intro hne; exact absurd hf hne
    · intro _; exact hc
  · rcases step6_cases ns c with ⟨_, hf⟩ | ⟨_, _, hc⟩
    · intro hne; exact absurd hf hne
    · intro _; exact hc

theorem C7_witness :
    (step1 dummyNames (lit "x")).code = lit "x" ∧
    (runSteps dummyNames (lit "x")).applied.length +
      (runSteps dummyNames (lit "x")).failed.length +
      (runSteps dummyNames (lit "x")).warnings.length = 7 :=
  ⟨(C7_edit_frame_and_independence dummyNames (lit "x")).1 (by decide),
   (C7_edit_frame_and_independence dummyNames (lit "x")).2.2.2.2.2⟩

/-- C9: when no backup exists at `<target>.bak`, `removePatch` returns
false and performs no copy — the filesystem, and in particular the target
file's content, is unchanged. -/
theorem C9_restore_missing_backup (fs : Fs) (p : Str)
    (h : existsSync fs (p ++ lit ".bak") = false) :
    (removePatch fs p).1 = false ∧ (removePatch fs p).2 = fs ∧
    fsLookup (removePatch fs p).2 p = fsLookup fs p := by
  unfold removePatch
  simp [h]

theorem C9_witness :
    (removePatch [] (lit "cli.js")).1 = false ∧
    (removePatch [] (lit "cli.js")).2 = [] ∧
    fsLookup (removePatch [] (lit "cli.js")).2 (lit "cli.js") =
      fsLookup [] (lit "cli.js") :=
  C9_restore_missing_backup [] (lit "cli.js") (by decide)

/-! ### Per-run label bookkeeping -/

theorem runSteps_entries (ns : Names) (c : Str) :
    ∃ (A1 F1 A2 F2 A3 F3 A4 F4 AM WM A6 F6 : List Str),
      (runSteps ns c).applied = A1 ++ A2 ++ A3 ++ A4 ++ AM ++ A6 ∧
      (runSteps ns c).failed = F1 ++ F2 ++ F3 ++ F4 ++ F6 ∧
      (runSteps ns c).warnings = WM ∧
      (A1 = [lbl1ok] ∧ F1 = [] ∨ A1 = [] ∧ F1 = [lbl1fail]) ∧
      (A2 = [lbl2ok] ∧ F2 = [] ∨
        A2 = [] ∧ (F2 = [lbl2failAnchor] ∨ F2 = [lbl2failStart])) ∧
      (A3 = [lbl3ok] ∧ F3 = [] ∨ A3 = [] ∧ F3 = [lbl3fail]) ∧
      (A4 = [lbl4ok] ∧ F4 = [] ∨ A4 = [] ∧ F4 = [lbl4fail]) ∧
      (∃ b1 b2 : Bool,
        AM = (cond b1 [msgAppliedLabel msgFind1] []) ++
          (cond b2 [msgAppliedLabel msgFind2] []) ∧
        WM = (cond b1 [] [msgWarnLabel msgFind1]) ++
          (cond b2 [] [msgWarnLabel msgFind2])) ∧
      (A6 = [lbl6ok] ∧ F6 = [] ∨ A6 = [] ∧ F6 = [lbl6fail]) := by
  obtain ⟨c', b1, b2, hm⟩ :=
    msgStep_cases (step4 ns (step3 ns (step2 ns (step1 ns c).code).code).code).code
  refine ⟨(step1 ns c).applied, (step1 ns c).failed,
    (step2 ns (step1 ns c).code).applied, (step2 ns (step1 ns c).code).failed,
    (step3 ns (step2 ns (step1 ns c).code).code).applied,
    (step3 ns (step2 ns (step1 ns c).code).code).failed,
    (step4 ns (step3 ns (step2 ns (step1 ns c).code).code).code).applied,
    (step4 ns (step3 ns (step2 ns (step1 ns c).code).code).code).failed,
    (msgStep msgPairs (step4 ns (step3 ns (step2 ns (step1 ns c).code).code).code).code).2.1,
    (msgStep msgPairs (step4 ns (step3 ns (step2 ns (step1 ns c).code).code).code).code).2.2,
    (step6 ns (msgStep msgPairs
      (step4 ns (step3 ns (step2 ns (step1 ns c).code).code).code).code).1).applied,
    (step6 ns (msgStep msgPairs
      (step4 ns (step3 ns (step2 ns (step1 ns c).code).code).code).code).1).failed,
    runSteps_applied ns c, runSteps_failed ns c, runSteps_warnings ns c,
    ?_, ?_, ?_, ?_, ?_, ?_⟩
  · rcases step1_cases ns c with ⟨ha, hf⟩ | ⟨ha, hf, _⟩
    · exact Or.inl ⟨ha, hf⟩
    · exact Or.inr ⟨ha, hf⟩
  · rcases step2_cases ns (step1 ns c).code with ⟨ha, hf⟩ | ⟨ha, hf, _⟩
    · exact Or.inl ⟨ha, hf⟩
    · exact Or.inr ⟨ha, hf⟩
  · rcases step3_cases ns (step2 ns (step1 ns c).code).code with ⟨ha, hf⟩ | ⟨ha, hf, _⟩
    · exact Or.inl ⟨ha, hf⟩
    · exact Or.inr ⟨ha, hf⟩
  · rcases step4_cases ns (step3 ns (step2 ns (step1 ns c).code).code).code with
      ⟨ha, hf⟩ | ⟨ha, hf, _⟩
    · exact Or.inl ⟨ha, hf⟩
    · exact Or.inr ⟨ha, hf⟩
  · exact ⟨b1, b2, by rw [hm], by rw [hm]⟩
  · rcases step6_cases ns (msgStep msgPairs
      (step4 ns (step3 ns (step2 ns (step1 ns c).code).code).code).code).1 with
      ⟨ha, hf⟩ | ⟨ha, hf, _⟩
    · exact Or.inl ⟨ha, hf⟩
    · exact Or.inr ⟨ha, hf⟩

/-- C10: for every input passing recognition, idempotency and extraction,
the report holds exactly seven entries — one per structural edit, in
exactly one of appliedPatches/failedPatches, and one per message pair, in
exactly one of appliedPatches/warnings. -/
theorem C10_seven_entries (code : Str) (ns : Names)
    (h1 : jsIncludes code (lit "BackendRegistry") = true)
    (h2 : jsIncludes code (lit "type=\"tmux\"") = true)
    (h3 : alreadyPatchedCheck code = false)
    (hx : extractMinifiedNames code = some ns) :
    (patchCliSource code).appliedPatches.length +
      (patchCliSource code).failedPatches.length +
      (patchCliSource code).warnings.length = 7 ∧
    Xor' (lbl1ok ∈ (patchCliSource code).appliedPatches)
      (lbl1fail ∈ (patchCliSource code).failedPatches) ∧
    Xor' (lbl2ok ∈ (patchCliSource code).appliedPatches)
      (lbl2failAnchor ∈ (patchCliSource code).failedPatches ∨
        lbl2failStart ∈ (patchCliSource code).failedPatches) ∧
    Xor' (lbl3ok ∈ (patchCliSource code).appliedPatches)
      (lbl3fail ∈ (patchCliSource code).failedPatches) ∧
    Xor' (lbl4ok ∈ (patchCliSource code).appliedPatches)
      (lbl4fail ∈ (patchCliSource code).failedPatches) ∧
    Xor' (lbl6ok ∈ (patchCliSource code).appliedPatches)
      (lbl6fail ∈ (patchCliSource code).failedPatches) ∧
    Xor' (msgAppliedLabel msgFind1 ∈ (patchCliSource code).appliedPatches)
      (msgWarnLabel msgFind1 ∈ (patchCliSource code).warnings) ∧
    Xor' (msgAppliedLabel msgFind2 ∈ (patchCliSource code).appliedPatches)
      (msgWarnLabel msgFind2 ∈ (patchCliSource code).warnings) := by
  rw [patchCliSource_main h1 h2 h3 hx]
  obtain ⟨A1, F1, A2, F2, A3, F3, A4, F4, AM, WM, A6, F6,
    hA, hF, hW, d1, d2, d3, d4, ⟨b1, b2, hAM, hWM⟩, d6⟩ := runSteps_entries ns code
  simp only [hA, hF, hW, hAM, hWM]
  clear hA hF hW hAM hWM h1 h2 h3 hx
  rcases d1 with ⟨rfl, rfl⟩ | ⟨rfl, rfl⟩ <;>
    rcases d2 with ⟨rfl, rfl⟩ | ⟨rfl, rfl | rfl⟩ <;>
    rcases d3 with ⟨rfl, rfl⟩ | ⟨rfl, rfl⟩ <;>
    rcases d4 with ⟨rfl, rfl⟩ | ⟨rfl, rfl⟩ <;>
    rcases d6 with ⟨rfl, rfl⟩ | ⟨rfl, rfl⟩ <;>
    cases b1 <;> cases b2 <;> decide

theorem C10_witness :
    (patchCliSource w10Text).appliedPatches.length +
      (patchCliSource w10Text).failedPatches.length +
      (patchCliSource w10Text).warnings.length = 7 ∧
    Xor' (lbl1ok ∈ (patchCliSource w10Text).appliedPatches)
      (lbl1fail ∈ (patchCliSource w10Text).failedPatches) ∧
    Xor' (lbl2ok ∈ (patchCliSource w10Text).appliedPatches)
      (lbl2failAnchor ∈ (patchCliSource w10Text).failedPatches ∨
        lbl2failStart ∈ (patchCliSource w10Text).failedPatches) ∧
    Xor' (lbl3ok ∈ (patchCliSource w10Text).appliedPatches)
      (lbl3fail ∈ (patchCliSource w10Text).failedPatches) ∧
    Xor' (lbl4ok ∈ (patchCliSource w10Text).appliedPatches)
      (lbl4fail ∈ (patchCliSource w10Text).failedPatches) ∧
    Xor' (lbl6ok ∈ (patchCliSource w10Text).appliedPatches)
      (lbl6fail ∈ (patchCliSource w10Text).failedPatches) ∧
    Xor' (msgAppliedLabel msgFind1 ∈ (patchCliSource w10Text).appliedPatches)
      (msgWarnLabel msgFind1 ∈ (patchCliSource w10Text).warnings) ∧
    Xor' (msgAppliedLabel msgFind2 ∈ (patchCliSource w10Text).appliedPatches)
      (msgWarnLabel msgFind2 ∈ (patchCliSource w10Text).warnings) :=
  C10_seven_entries w10Text witNames (by decide) (by decide) (by decide) (by decide)

/-- C4 (amended): the best-effort message replacements are two in number,
each independently optional — every warning is one of the two
message-not-found labels, warnings plus applied message labels always
account for exactly the two pairs, message absence is never recorded as a
failure (failures only carry structural-edit labels), and success is
exactly emptiness of the failure list, unaffected by warnings. -/
theorem C4_msg_replacements (code : Str) (ns : Names)
    (h1 : jsIncludes code (lit "BackendRegistry") = true)
    (h2 : jsIncludes code (lit "type=\"tmux\"") = true)
    (h3 : alreadyPatchedCheck code = false)
    (hx : extractMinifiedNames code = some ns) :
    (patchCliSource code).warnings.length +
      ((patchCliSource code).appliedPatches.count (msgAppliedLabel msgFind1) +
       (patchCliSource code).appliedPatches.count (msgAppliedLabel msgFind2)) = 2 ∧
    (∀ w ∈ (patchCliSource code).warnings,
      w = msgWarnLabel msgFind1 ∨ w = msgWarnLabel msgFind2) ∧
    (∀ f ∈ (patchCliSource code).failedPatches,
      f = lbl1fail ∨ f = lbl2failAnchor ∨ f = lbl2failStart ∨ f = lbl3fail ∨
        f = lbl4fail ∨ f = lbl6fail) ∧
    ((patchCliSource code).success = true ↔ (patchCliSource code).failedPatches = []) := by
  rw [patchCliSource_main h1 h2 h3 hx]
  obtain ⟨A1, F1, A2, F2, A3, F3, A4, F4, AM, WM, A6, F6,
    hA, hF, hW, d1, d2, d3, d4, ⟨b1, b2, hAM, hWM⟩, d6⟩ := runSteps_entries ns code
  simp only [hA, hF, hW, hAM, hWM]
  clear hA hF hW hAM hWM h1 h2 h3 hx
  rcases d1 with ⟨rfl, rfl⟩ | ⟨rfl, rfl⟩ <;>
    rcases d2 with ⟨rfl, rfl⟩ | ⟨rfl, rfl | rfl⟩ <;>
    rcases d3 with ⟨rfl, rfl⟩ | ⟨rfl, rfl⟩ <;>
    rcases d4 with ⟨rfl, rfl⟩ | ⟨rfl, rfl⟩ <;>
    rcases d6 with ⟨rfl, rfl⟩ | ⟨rfl, rfl⟩ <;>
    cases b1 <;> cases b2 <;> decide

theorem C4_witness :
    (patchCliSource w4Text).warnings.length +
      ((patchCliSource w4Text).appliedPatches.count (msgAppliedLabel msgFind1) +
       (patchCliSource w4Text).appliedPatches.count (msgAppliedLabel msgFind2)) = 2 ∧
    (∀ w ∈ (patchCliSource w4Text).warnings,
      w = msgWarnLabel msgFind1 ∨ w = msgWarnLabel msgFind2) ∧
    (∀ f ∈ (patchCliSource w4Text).failedPatches,
      f = lbl1fail ∨ f = lbl2failAnchor ∨ f = lbl2failStart ∨ f = lbl3fail ∨
        f = lbl4fail ∨ f = lbl6fail) ∧
    ((patchCliSource w4Text).success = true ↔ (patchCliSource w4Text).failedPatches = []) :=
  C4_msg_replacements w4Text witNames (by decide) (by decide) (by decide) (by decide)

/-! ### Helpers for successful edit runs -/

theorem jsIncludes_some {s f : Str} (h : jsIncludes s f = true) :
    ∃ a b, splitFirst f s = some (a, b) := by
  unfold jsIncludes at h
  cases e : splitFirst f s with
  | none => rw [e] at h; simp at h
  | some p =>
    obtain ⟨a, b⟩ := p
    exact ⟨a, b, rfl⟩

theorem replaceFirst_of_split {f r s a b : Str} (h : splitFirst f s = some (a, b)) :
    replaceFirst f r s = a ++ r ++ b := by
  simp [replaceFirst, h]

theorem expectLit_some {pat s r : Str} (h : expectLit pat s = some r) :
    pat <+: s ∧ r = s.drop pat.length := by
  unfold expectLit at h
  split at h
  · next hp =>
    refine ⟨List.isPrefixOf_iff_prefix.mp hp, ?_⟩
    exact (Option.some.inj h).symm
  · simp at h

theorem letKParse_marker {s : Str} (h : letKParse s = true) :
    lit "let K=await" <+: s := by
  by_contra hn
  have he : expectLit (lit "let K=await") s = none := by
    unfold expectLit
    rw [if_neg]
    intro hp
    exact hn (List.isPrefixOf_iff_prefix.mp hp)
  unfold letKParse at h
  rw [he] at h
  simp at h

theorem firstLetK_spec {s : Str} {j : Nat} (h : firstLetK s = some j) :
    j ≤ s.length ∧ letKParse (s.drop j) = true := by
  induction s generalizing j with
  | nil =>
    unfold firstLetK at h
    by_cases hp : letKParse []
    · simp [hp] at h
      subst h
      exact ⟨Nat.le_refl 0, by simpa using hp⟩
    · simp [hp] at h
  | cons c rest ih =>
    unfold firstLetK at h
    by_cases hp : letKParse (c :: rest)
    · simp [hp] at h
      subst h
      exact ⟨Nat.zero_le _, by simpa using hp⟩
    · simp [hp] at h
      obtain ⟨j', hj', rfl⟩ := h
      obtain ⟨hle, hpar⟩ := ih hj'
      exact ⟨by simpa using Nat.succ_le_succ hle, by simpa using hpar⟩

theorem prefix_append_mono {x u : Str} (X : Str) (h : x <+: u) : x <+: u ++ X :=
  h.trans (List.prefix_append u X)

theorem ball_flip {n : Nat} {P : Nat → Prop} (h : ∀ j, j < n → (0 < j → P j)) :
    ∀ j, 0 < j → j < n → P j := fun j h0 hl => h j hl h0

theorem hD_of_chk {T c rest : Str}
    (h : ∀ j, j < T.length → (0 < j → ¬ (T.drop j <+: c) ∧ ¬ (c <+: T.drop j))) :
    ∀ j, 0 < j → j < T.length → ¬ (T.drop j <+: c ++ rest) := by
  intro j h0 hl hp
  rcases prefix_append_cases hp with hh | hh
  · exact (h j hl h0).1 hh
  · exact (h j hl h0).2 hh

theorem hE_of_chk {T rest d : Str}
    (h : ∀ j, j < T.length → (0 < j → ¬ (T.take j <:+ d) ∧ ¬ (d <:+ T.take j))) :
    ∀ j, 0 < j → j < T.length → ¬ (T.take j <:+ rest ++ d) := by
  intro j h0 hl hp
  rcases suffix_append_cases hp with hh | hh
  · exact (h j hl h0).1 hh
  · exact (h j hl h0).2 hh

theorem not_infix_of_head_longer {find c rest T : Str} (hEq : find = c ++ rest)
    (h : T.length < c.length) : ¬ find <:+: T := by
  intro hc
  rw [hEq] at hc
  exact absurd ((List.prefix_append c rest).isInfix.trans hc) (not_infix_of_longer h)

theorem not_infix_of_head_mem {find c rest T : Str} (hEq : find = c ++ rest)
    {ch : Char} (hm : ch ∈ c) (hn : ch ∉ T) : ¬ find <:+: T := by
  intro hc
  rw [hEq] at hc
  exact hn (hc.subset (List.mem_append.mpr (Or.inl hm)))

theorem replaceFirst_preserves {T find repl s : Str}
    (hTf : T <:+: find → T <:+: repl)
    (hD : ∀ j, 0 < j → j < T.length → ¬ (T.drop j <+: find))
    (hE : ∀ j, 0 < j → j < T.length → ¬ (T.take j <:+ find))
    (hF : ¬ find <:+: T)
    (h : T <:+: s) : T <:+: replaceFirst find repl s := by
  unfold replaceFirst
  cases e : splitFirst find s with
  | none => exact h
  | some p =>
    obtain ⟨a, b⟩ := p
    have hs := splitFirst_eq_some e
    rw [hs] at h
    exact infix_replaceSeg h hTf hD hE hF

theorem replaceWhile_preserves {T find repl : Str}
    (hTf : T <:+: find → T <:+: repl)
    (hD : ∀ j, 0 < j → j < T.length → ¬ (T.drop j <+: find))
    (hE : ∀ j, 0 < j → j < T.length → ¬ (T.take j <:+ find))
    (hF : ¬ find <:+: T) :
    ∀ (fuel : Nat) (s : Str), T <:+: s → T <:+: replaceWhile find repl fuel s := by
  intro fuel
  induction fuel with
  | zero => intro s h; exact h
  | succ n ih =>
    intro s h
    unfold replaceWhile
    by_cases hin : jsIncludes s find = true
    · rw [if_pos hin]
      exact ih _ (replaceFirst_preserves hTf hD hE hF h)
    · rw [if_neg hin]
      exact h

theorem msgStep_code_preserves {T : Str}
    (hTf1 : T <:+: msgFind1 → T <:+: msgRepl1)
    (hD1 : ∀ j, 0 < j → j < T.length → ¬ (T.drop j <+: msgFind1))
    (hE1 : ∀ j, 0 < j → j < T.length → ¬ (T.take j <:+ msgFind1))
    (hF1 : ¬ msgFind1 <:+: T)
    (hTf2 : T <:+: msgFind2 → T <:+: msgRepl2)
    (hD2 : ∀ j, 0 < j → j < T.length → ¬ (T.drop j <+: msgFind2))
    (hE2 : ∀ j, 0 < j → j < T.length → ¬ (T.take j <:+ msgFind2))
    (hF2 : ¬ msgFind2 <:+: T)
    {c : Str} (h : T <:+: c) : T <:+: (msgStep msgPairs c).1 := by
  have h1 : ∀ s : Str, T <:+: s →
      T <:+: (if jsIncludes s msgFind1 then replaceWhile msgFind1 msgRepl1 (s.length + 1) s
        else s) := by
    intro s hs
    split
    · exact replaceWhile_preserves hTf1 hD1 hE1 hF1 _ _ hs
    · exact hs
  have h2 : ∀ s : Str, T <:+: s →
      T <:+: (if jsIncludes s msgFind2 then replaceWhile msgFind2 msgRepl2 (s.length + 1) s
        else s) := by
    intro s hs
    split
    · exact replaceWhile_preserves hTf2 hD2 hE2 hF2 _ _ hs
    · exact hs
  simp only [msgStep, msgPairs]
  by_cases e1 : jsIncludes c msgFind1 = true
  · simp only [e1, if_true]
    have hs1 := replaceWhile_preserves hTf1 hD1 hE1 hF1 (c.length + 1) c h
    by_cases e2 : jsIncludes (replaceWhile msgFind1 msgRepl1 (c.length + 1) c) msgFind2 = true
    · simp only [e2, if_true, msgStep]
      exact replaceWhile_preserves hTf2 hD2 hE2 hF2 _ _ hs1
    · simp only [eq_false_of_ne_true e2, if_false, msgStep]
      exact hs1
  · simp only [eq_false_of_ne_true e1, if_false]
    by_cases e2 : jsIncludes c msgFind2 = true
    · simp only [e2, if_true, msgStep]
      exact replaceWhile_preserves hTf2 hD2 hE2 hF2 _ _ h
    · simp only [eq_false_of_ne_true e2, if_false, msgStep]
      exact h

theorem step1_failed_nil {ns : Names} {c : Str} (h : (step1 ns c).failed = []) :
    ∃ a b, splitFirst (p1Anchor ns) c = some (a, b) := by
  cases e : splitFirst (p1Anchor ns) c with
  | none => exfalso; rw [show step1 ns c = ⟨c, [], [lbl1fail], []⟩ from by simp [step1, e]] at h; simp at h
  | some p =>
    obtain ⟨a, b⟩ := p
    exact ⟨a, b, rfl⟩

theorem step1_code {ns : Names} {c a b : Str} (e : splitFirst (p1Anchor ns) c = some (a, b)) :
    (step1 ns c).code =
      a ++ zellijDetectionCode ns ++ lit "\n" ++ zellijBackendClass ns ++ lit "\n" ++
        (p1Anchor ns ++ b) := by
  simp [step1, e]

theorem step2_failed_nil {ns : Names} {c : Str} (h : (step2 ns c).failed = []) :
    ∃ a b j, splitFirst cascadeAnchor c = some (a, b) ∧
      firstLetK (a.drop (a.length - min a.length 200)) = some j := by
  cases e : splitFirst cascadeAnchor c with
  | none => exfalso; rw [step2_none e] at h; simp at h
  | some p =>
    obtain ⟨a, b⟩ := p
    cases e2 : firstLetK (a.drop (a.length - min a.length 200)) with
    | none => exfalso; rw [step2_noStart e e2] at h; simp at h
    | some j => exact ⟨a, b, j, rfl, e2⟩

theorem step3_failed_nil {ns : Names} {c : Str} (h : (step3 ns c).failed = []) :
    jsIncludes c errorAnchor = true := by
  by_cases e : jsIncludes c errorAnchor = true
  · exact e
  · exfalso
    unfold step3 at h
    rw [if_neg e] at h
    simp at h

theorem step3_code {ns : Names} {c : Str} (e : jsIncludes c errorAnchor = true) :
    (step3 ns c).code = replaceFirst errorAnchor (zellijFallback ns ++ errorAnchor) c := by
  unfold step3
  rw [if_pos e]

theorem step4_failed_nil {ns : Names} {c : Str} (h : (step4 ns c).failed = []) :
    jsIncludes c (p4Anchor ns) = true := by
  by_cases e : jsIncludes c (p4Anchor ns) = true
  · exact e
  · exfalso
    unfold step4 at h
    rw [if_neg e] at h
    simp at h

theorem step4_code {ns : Names} {c : Str} (e : jsIncludes c (p4Anchor ns) = true) :
    (step4 ns c).code = replaceFirst (p4Anchor ns) (p4Anchor ns ++ p4Ext) c := by
  unfold step4
  rw [if_pos e]

theorem step6_failed_nil {ns : Names} {c : Str} (h : (step6 ns c).failed = []) :
    jsIncludes c (p6Find ns) = true := by
  by_cases e : jsIncludes c (p6Find ns) = true
  · exact e
  · exfalso
    unfold step6 at h
    rw [if_neg e] at h
    simp at h

theorem step6_code {ns : Names} {c : Str} (e : jsIncludes c (p6Find ns) = true) :
    (step6 ns c).code = replaceFirst (p6Find ns) (p6Repl ns) c := by
  unfold step6
  rw [if_pos e]

theorem step1_preserves {T : Str} {ns : Names} {c a b : Str}
    (e : splitFirst (p1Anchor ns) c = some (a, b))
    (hc : ∀ j, j < T.length →
      (0 < j → ¬ (T.drop j <+: lit "class ") ∧ ¬ (lit "class " <+: T.drop j)))
    (h : T <:+: c) : T <:+: (step1 ns c).code := by
  rw [step1_code e]
  have hs := splitFirst_eq_some e
  rw [hs] at h
  have h' : T <:+: a ++ (p1Anchor ns ++ b) := by
    simpa [List.append_assoc] using h
  have hM : lit "class " <+: p1Anchor ns ++ b := by
    apply prefix_append_mono
    unfold p1Anchor
    exact prefix_append_mono _ (List.prefix_append _ _)
  have hr := @infix_insert_marker _ _ _
    (zellijDetectionCode ns ++ lit "\n" ++ zellijBackendClass ns ++ lit "\n") _
    h' hM (ball_flip hc)
  simpa [List.append_assoc] using hr

theorem step2_preserves {T : Str} {ns : Names} {c a b : Str} {j : Nat}
    (e : splitFirst cascadeAnchor c = some (a, b))
    (e2 : firstLetK (a.drop (a.length - min a.length 200)) = some j)
    (hc : ∀ i, i < T.length →
      (0 < i → ¬ (T.drop i <+: lit "let K=await") ∧ ¬ (lit "let K=await" <+: T.drop i)))
    (h : T <:+: c) : T <:+: (step2 ns c).code := by
  rw [step2_some e e2]
  obtain ⟨hjle, hpar⟩ := firstLetK_spec e2
  rw [List.length_drop] at hjle
  have hplen : a.length - min a.length 200 + j ≤ a.length := by omega
  have hdropeq : a.drop (a.length - min a.length 200 + j) =
      (a.drop (a.length - min a.length 200)).drop j := by
    rw [List.drop_drop]
  have hM0 : lit "let K=await" <+: a.drop (a.length - min a.length 200 + j) := by
    rw [hdropeq]
    exact letKParse_marker hpar
  have hcs := splitFirst_eq_some e
  have hdropc : c.drop (a.length - min a.length 200 + j) =
      a.drop (a.length - min a.length 200 + j) ++ (cascadeAnchor ++ b) := by
    rw [hcs, List.append_assoc, List.drop_append_eq_append_drop,
      Nat.sub_eq_zero_of_le hplen, List.drop_zero]
  have hM : lit "let K=await" <+: c.drop (a.length - min a.length 200 + j) := by
    rw [hdropc]
    exact prefix_append_mono _ hM0
  have h' : T <:+: c.take (a.length - min a.length 200 + j) ++
      c.drop (a.length - min a.length 200 + j) := by
    rw [List.take_append_drop]
    exact h
  exact infix_insert_marker h' hM (ball_flip hc)

theorem step3_preserves {T : Str} {ns : Names} {c : Str}
    (e : jsIncludes c errorAnchor = true)
    (hD : ∀ j, j < T.length → (0 < j → ¬ (T.drop j <+: errorAnchor)))
    (hE : ∀ j, j < T.length → (0 < j → ¬ (T.take j <:+ errorAnchor)))
    (hF : ¬ errorAnchor <:+: T)
    (h : T <:+: c) : T <:+: (step3 ns c).code := by
  rw [step3_code e]
  exact replaceFirst_preserves (fun hf => infix_append_right _ hf)
    (ball_flip hD) (ball_flip hE) hF h

theorem step4_preserves {T : Str} {ns : Names} {c : Str}
    (e : jsIncludes c (p4Anchor ns) = true)
    (hcH : ∀ j, j < T.length →
      (0 < j → ¬ (T.drop j <+: lit "case\"tmux\":return ") ∧
        ¬ (lit "case\"tmux\":return " <+: T.drop j)))
    (hcT : ∀ j, j < T.length →
      (0 < j → ¬ (T.take j <:+ lit "()") ∧ ¬ (lit "()" <:+ T.take j)))
    (hlen : T.length < 18)
    (h : T <:+: c) : T <:+: (step4 ns c).code := by
  rw [step4_code e]
  have eq4 : p4Anchor ns = lit "case\"tmux\":return " ++
      (ns.tmuxFactory ++ (lit "();case\"iterm2\":return " ++
        (ns.iterm2Factory ++ lit "()"))) := by
    simp [p4Anchor, List.append_assoc]
  refine replaceFirst_preserves (fun hf => infix_append_left _ hf) ?_ ?_ ?_ h
  · simp only [eq4]
    exact hD_of_chk hcH
  · unfold p4Anchor
    exact hE_of_chk hcT
  · refine not_infix_of_head_longer eq4 ?_
    have h18 : (lit "case\"tmux\":return ").length = 18 := by decide
    omega

theorem step6_preserves {T : Str} {ns : Names} {c : Str}
    (e : jsIncludes c (p6Find ns) = true)
    (hcH : ∀ j, j < T.length →
      (0 < j → ¬ (T.drop j <+: lit "else q=!") ∧ ¬ (lit "else q=!" <+: T.drop j)))
    (hcT : ∀ j, j < T.length →
      (0 < j → ¬ (T.take j <:+ lit "()") ∧ ¬ (lit "()" <:+ T.take j)))
    (hq : 'q' ∉ T)
    (h : T <:+: c) : T <:+: (step6 ns c).code := by
  rw [step6_code e]
  have eq6 : p6Find ns = lit "else q=!" ++ (ns.isInsideTmuxSyncFn ++ lit "()") := by
    simp [p6Find, List.append_assoc]
  have hpre : p6Find ns <+: p6Repl ns := by
    unfold p6Find p6Repl
    rw [List.append_assoc, List.append_assoc]
    apply (List.prefix_append_right_inj _).mpr
    apply (List.prefix_append_right_inj _).mpr
    decide
  refine replaceFirst_preserves (fun hf => hf.trans hpre.isInfix) ?_ ?_ ?_ h
  · simp only [eq6]
    exact hD_of_chk hcH
  · unfold p6Find
    exact hE_of_chk hcT
  · exact not_infix_of_head_mem eq6 (by decide) hq

/-- C1: on any text that carries the recognition markers, is not already
patched, extracts an identifier bundle, and on which every edit finds its
anchor (no failed patches), the patcher succeeds with a patched source that
itself satisfies the already-patched predicate, and running the patcher a
second time on that patched source returns the AlreadyPatched failure. -/
theorem C1_patch_roundtrip (code : Str) (ns : Names)
    (h1 : jsIncludes code (lit "BackendRegistry") = true)
    (h2 : jsIncludes code (lit "type=\"tmux\"") = true)
    (h3 : alreadyPatchedCheck code = false)
    (hx : extractMinifiedNames code = some ns)
    (hanchors : (patchCliSource code).failedPatches = []) :
    (patchCliSource code).success = true ∧
    ∃ p, (patchCliSource code).patchedSource = some p ∧
      alreadyPatchedCheck p = true ∧
      patchCliSource p = alreadyPatchedResult := by
  have hmain := patchCliSource_main h1 h2 h3 hx
  rw [hmain] at hanchors
  replace hanchors : (runSteps ns code).failed = [] := hanchors
  rw [runSteps_failed] at hanchors
  rw [List.append_eq_nil, List.append_eq_nil, List.append_eq_nil,
    List.append_eq_nil] at hanchors
  obtain ⟨⟨⟨⟨hf1, hf2⟩, hf3⟩, hf4⟩, hf6⟩ := hanchors
  obtain ⟨a1, b1, e1⟩ := step1_failed_nil hf1
  obtain ⟨a2, b2, j2, e2, e2k⟩ := step2_failed_nil hf2
  have e3 := step3_failed_nil hf3
  have e4 := step4_failed_nil hf4
  have e6 := step6_failed_nil hf6
  have hfl : (runSteps ns code).failed = [] := by
    rw [runSteps_failed, hf1, hf2, hf3, hf4, hf6]
    rfl
  -- the marker `type="tmux"` survives every edit
  have t0 : lit "type=\"tmux\"" <:+: code := jsIncludes_iff.mp h2
  have t1 := step1_preserves e1 (by decide) t0
  have t2 := @step2_preserves _ ns _ _ _ _ e2 e2k (by decide) t1
  have t3 := @step3_preserves _ ns _ e3 (by decide) (by decide)
    (not_infix_of_longer (by decide)) t2
  have t4 := step4_preserves e4 (by decide) (by decide) (by decide) t3
  have t5 := msgStep_code_preserves
    (fun hf => absurd hf (by decide)) (ball_flip (by decide)) (ball_flip (by decide))
    (not_infix_of_longer (by decide))
    (fun hf => absurd hf (by decide)) (ball_flip (by decide)) (ball_flip (by decide))
    (not_infix_of_longer (by decide)) t4
  have t6 := step6_preserves e6 (by decide) (by decide) (by decide) t5
  -- `BackendRegistry` is introduced by the PATCH 3 fallback and survives
  obtain ⟨a3, b3, e3s⟩ := jsIncludes_some e3
  have hfb : lit "BackendRegistry" <:+: zellijFallback ns := by
    have hbit : lit "BackendRegistry" <:+:
        lit "(\"[BackendRegistry] Checking zellij availability: \"+ZA),ZA)\x7b" := by
      decide
    have heq : zellijFallback ns = lit "\x7blet ZA=await isZellijAvailable();" ++
        (lit "if(" ++ (ns.logFn ++
          (lit "(\"[BackendRegistry] Checking zellij availability: \"+ZA),ZA)\x7b" ++
            (ns.logFn ++ (lit "(\"[BackendRegistry] Selected: zellij (external)\");" ++
              (lit "let ZB=createZellijBackend();" ++ (lit "return " ++
                (ns.cachedBackendRef ++ (lit "=ZB," ++ (ns.cachedResultVar ++
                  (lit "=\x7bbackend:ZB,isNative:!1,needsIt2Setup:!1\x7d," ++
                    (ns.cachedResultVar ++ lit "\x7d\x7d")))))))))))) := by
      simp [zellijFallback, List.append_assoc]
    rw [heq]
    exact infix_append_right _ (infix_append_right _ (infix_append_right _
      (infix_append_left _ hbit)))
  have b3p : lit "BackendRegistry" <:+:
      (step3 ns (step2 ns (step1 ns code).code).code).code := by
    rw [step3_code e3, replaceFirst_of_split e3s]
    exact infix_append_left _ (infix_append_right _ (infix_append_left _ hfb))
  have b4 := step4_preserves e4 (by decide) (by decide) (by decide) b3p
  have b5 := msgStep_code_preserves
    (fun hf => absurd hf (by decide)) (ball_flip (by decide)) (ball_flip (by decide))
    (not_infix_of_longer (by decide))
    (fun hf => absurd hf (by decide)) (ball_flip (by decide)) (ball_flip (by decide))
    (not_infix_of_longer (by decide)) b4
  have b6 := step6_preserves e6 (by decide) (by decide) (by decide) b5
  -- `isInsideZellijSync` is introduced by the final edit
  obtain ⟨a6, b6t, e6s⟩ := jsIncludes_some e6
  have z6 : lit "isInsideZellijSync" <:+:
      (step6 ns (msgStep msgPairs
        (step4 ns (step3 ns (step2 ns (step1 ns code).code).code).code).code).1).code := by
    rw [step6_code e6, replaceFirst_of_split e6s]
    have hz : lit "isInsideZellijSync" <:+: p6Repl ns := by
      have : lit "isInsideZellijSync" <:+: lit "()&&!isInsideZellijSync()" := by decide
      unfold p6Repl
      exact infix_append_right _ this
    exact infix_append_left _ (infix_append_right _ hz)
  -- package the conclusions
  have hcode6 : (runSteps ns code).code =
      (step6 ns (msgStep msgPairs
        (step4 ns (step3 ns (step2 ns (step1 ns code).code).code).code).code).1).code :=
    runSteps_code ns code
  have hTT : lit "type=\"tmux\"" <:+: (runSteps ns code).code := by rw [hcode6]; exact t6
  have hBR : lit "BackendRegistry" <:+: (runSteps ns code).code := by rw [hcode6]; exact b6
  have hZZ : lit "isInsideZellijSync" <:+: (runSteps ns code).code := by
    rw [hcode6]; exact z6
  have hAP : alreadyPatchedCheck ((runSteps ns code).code) = true := by
    unfold alreadyPatchedCheck
    rw [jsIncludes_iff.mpr hZZ]
    simp
  refine ⟨?_, (runSteps ns code).code, ?_, hAP, ?_⟩
  · rw [hmain]
    show ((runSteps ns code).failed.length == 0) = true
    rw [hfl]
    rfl
  · rw [hmain]
    show (if ((runSteps ns code).failed.length == 0) then
      some (runSteps ns code).code else none) = some (runSteps ns code).code
    rw [hfl]
    rfl
  · exact patchCliSource_alreadyPatched (jsIncludes_iff.mpr hBR) (jsIncludes_iff.mpr hTT) hAP

/-! ### Locating a first occurrence inside a long concatenation -/

theorem splitFirst_append_some {f u v a b : Str}
    (hu : ¬ f <:+: u)
    (hstr : ∀ j, 0 < j → j < f.length → ¬ (f.take j <:+ u) ∨ ¬ (f.drop j <+: v))
    (hv : splitFirst f v = some (a, b)) :
    splitFirst f (u ++ v) = some (u ++ a, b) := by
  induction u with
  | nil => simpa using hv
  | cons c u' ih =>
    have hu' : ¬ f <:+: u' := fun hh => hu (List.infix_cons hh)
    have hstr' : ∀ j, 0 < j → j < f.length → ¬ (f.take j <:+ u') ∨ ¬ (f.drop j <+: v) := by
      intro j h0 hl
      rcases hstr j h0 hl with hh | hh
      · left; exact fun hx => hh (hx.trans (List.suffix_cons c u'))
      · right; exact hh
    have hmain := ih hu' hstr'
    have hnp : f.isPrefixOf (c :: (u' ++ v)) = false := by
      rw [Bool.eq_false_iff]
      intro hp
      have hp' : f <+: (c :: u') ++ v := by
        rw [List.cons_append]
        exact List.isPrefixOf_iff_prefix.mp hp
      by_cases hlen : f.length ≤ (c :: u').length
      · exact hu (prefix_append_of_le hp' hlen).isInfix
      · push_neg at hlen
        have hup : (c :: u') <+: f :=
          prefix_of_prefix_le (List.prefix_append _ _) hp' (by omega)
        have htk : f.take (c :: u').length = c :: u' := by
          obtain ⟨t, ht⟩ := hup
          rw [← ht, List.take_append_eq_append_take, List.take_length]
          simp
        have hdp : f.drop (c :: u').length <+: v := by
          obtain ⟨t, ht⟩ := hup
          obtain ⟨w, hw⟩ := hp'
          have hdrop : f.drop (c :: u').length = t := by
            rw [← ht, List.drop_append_eq_append_drop, List.drop_length]
            simp
          rw [hdrop]
          rw [← ht, List.append_assoc] at hw
          exact ⟨w, List.append_cancel_left hw⟩
        rcases hstr (c :: u').length (by simp) hlen with hh | hh
        · apply hh
          rw [htk]
        · exact hh hdp
    rw [List.cons_append]
    show splitFirst f (c :: (u' ++ v)) = some ((c :: u') ++ a, b)
    simp [splitFirst, hnp, hmain]

theorem straddle_of_window {f u v : Str}
    (hwin : ¬ f <:+: takeLast (f.length - 1) u ++ v.take (f.length - 1)) :
    ∀ j, 0 < j → j < f.length → ¬ (f.take j <:+ u) ∨ ¬ (f.drop j <+: v) := by
  intro j h0 hl
  by_contra hc
  rw [not_or, not_not, not_not] at hc
  obtain ⟨hA, hB⟩ := hc
  apply hwin
  have h1 : f.take j <:+ takeLast (f.length - 1) u := by
    apply suffix_takeLast hA
    rw [List.length_take]
    omega
  have h2 : f.drop j <+: v.take (f.length - 1) := by
    apply prefix_take hB
    rw [List.length_drop]
    omega
  obtain ⟨s, hs⟩ := h1
  obtain ⟨t, ht⟩ := h2
  refine ⟨s, t, ?_⟩
  rw [← hs, ← ht, List.append_assoc, List.append_assoc,
    ← List.append_assoc (f.take j), List.take_append_drop]

theorem dropMin_eq_takeLast (a : Str) :
    a.drop (a.length - min a.length 200) = takeLast 200 a := by
  unfold takeLast
  congr 1
  omega

theorem takeLast_append_right {n : Nat} {u z : Str} (h : n ≤ z.length) :
    takeLast n (u ++ z) = takeLast n z := by
  unfold takeLast
  rw [List.length_append, List.drop_append_eq_append_drop]
  have h1 : u.length + z.length - n - u.length = z.length - n := by omega
  have h2 : u.drop (u.length + z.length - n) = [] :=
    List.drop_eq_nil_of_le (by omega)
  rw [h1, h2, List.nil_append]

theorem chunksScan_nil {f : Str} {w : Nat} (hne : f ≠ []) (hw : f.length ≤ w + 1)
    {pairs : List (Str × Str)}
    (ht : tailsOkB w [] pairs = true) (hh : hitsFreeB f [] pairs = true) :
    ¬ f <:+: chunksText pairs ∧
      finalTail [] pairs = takeLast w (chunksText pairs) := by
  have h0 : ¬ f <:+: ([] : Str) := by
    rw [List.infix_nil]
    exact hne
  have htb : ([] : Str) = takeLast w [] := by
    unfold takeLast
    simp
  have := chunksScan_sound hw pairs [] [] htb h0 ht hh
  simpa using this

/-! ### The `witSrc` run: every anchor is found -/

/-- PATCH 1 on `witSrc` splits at the recorded point and splices the blocks. -/
theorem wit_c1_decomp :
    (step1 witNames witSrc).code = w2Pre ++ (p1Anchor witNames ++ w1b) := by
  have e1 : splitFirst (p1Anchor witNames) witSrc = some (w1a, w1b) := by decide
  rw [step1_code e1]
  simp only [w2Pre, List.append_assoc]

/-- The spliced-in blocks contain no cascade anchor, and their recorded
last-62-character buffer is correct. -/
theorem wit_no_ca_pre :
    ¬ cascadeAnchor <:+: w2Pre ∧ finalTail [] pairsW = takeLast 62 w2Pre := by
  have hEq : chunksText pairsW = w2Pre := by
    simp [pairsW, chunksText, w2Pre, zellijDetectionCode, zellijBackendClass,
      List.append_assoc]
  have h := @chunksScan_nil cascadeAnchor 62 (by decide) (by decide) pairsW
    (by decide) (by decide)
  rw [hEq] at h
  exact h

/-- The first cascade-anchor occurrence in the patched text lies in the
original tail, after the spliced-in blocks. -/
theorem wit_split2 :
    splitFirst cascadeAnchor (w2Pre ++ (p1Anchor witNames ++ w1b)) =
      some (w2Pre ++ wX2, wB2) := by
  have hpre := wit_no_ca_pre
  have hwin : ¬ cascadeAnchor <:+:
      takeLast (cascadeAnchor.length - 1) w2Pre ++
        (p1Anchor witNames ++ w1b).take (cascadeAnchor.length - 1) := by
    have hlen : cascadeAnchor.length - 1 = 62 := by decide
    rw [hlen, ← hpre.2]
    exact jsIncludes_false_iff.mp (by decide)
  exact splitFirst_append_some hpre.1 (straddle_of_window hwin) (by decide)

/-- The same split, phrased on the PATCH 1 output. -/
theorem wit_split2_c1 :
    splitFirst cascadeAnchor (step1 witNames witSrc).code =
      some (w2Pre ++ wX2, wB2) := by
  rw [wit_c1_decomp]
  exact wit_split2

/-- The statement-start scan of PATCH 2 succeeds on the `witSrc` window. -/
theorem wit_letk :
    firstLetK ((w2Pre ++ wX2).drop
      ((w2Pre ++ wX2).length - min (w2Pre ++ wX2).length 200)) = some 176 := by
  rw [dropMin_eq_takeLast,
    takeLast_append_right (show 200 ≤ wX2.length by decide)]
  decide

/-- The PATCH 3 error anchor survives PATCHes 1 and 2 of the `witSrc` run. -/
theorem wit_err_c2 :
    jsIncludes (step2 witNames (step1 witNames witSrc).code).code
      errorAnchor = true := by
  apply jsIncludes_iff.mpr
  apply step2_preserves wit_split2_c1 wit_letk (by decide)
  rw [wit_c1_decomp]
  exact infix_append_right _ (infix_append_right _ (jsIncludes_iff.mp (by decide)))

/-- The PATCH 4 anchor survives PATCHes 1-3 of the `witSrc` run. -/
theorem wit_p4_c3 :
    jsIncludes (step3 witNames
      (step2 witNames (step1 witNames witSrc).code).code).code
      (p4Anchor witNames) = true := by
  apply jsIncludes_iff.mpr
  apply step3_preserves wit_err_c2 (by decide) (by decide)
    (not_infix_of_longer (by decide))
  apply step2_preserves wit_split2_c1 wit_letk (by decide)
  rw [wit_c1_decomp]
  exact infix_append_right _ (infix_append_right _ (jsIncludes_iff.mp (by decide)))

/-- The PATCH 6 search text survives PATCHes 1-5 of the `witSrc` run. -/
theorem wit_p6_c5 :
    jsIncludes (msgStep msgPairs (step4 witNames (step3 witNames
      (step2 witNames (step1 witNames witSrc).code).code).code).code).1
      (p6Find witNames) = true := by
  apply jsIncludes_iff.mpr
  apply msgStep_code_preserves
    (fun hf => absurd (jsIncludes_iff.mpr hf) (by decide))
    (ball_flip (by decide)) (ball_flip (by decide))
    (not_infix_of_longer (by decide))
    (fun hf => absurd (jsIncludes_iff.mpr hf) (by decide))
    (ball_flip (by decide)) (ball_flip (by decide))
    (not_infix_of_longer (by decide))
  apply step4_preserves wit_p4_c3 (by decide) (by decide) (by decide)
  apply step3_preserves wit_err_c2 (by decide) (by decide)
    (not_infix_of_longer (by decide))
  apply step2_preserves wit_split2_c1 wit_letk (by decide)
  rw [wit_c1_decomp]
  exact infix_append_right _ (infix_append_right _ (jsIncludes_iff.mp (by decide)))

/-- The `witSrc` run finds every anchor: no patch fails. -/
theorem wit_anchors : (patchCliSource witSrc).failedPatches = [] := by
  have h1 : jsIncludes witSrc (lit "BackendRegistry") = true := by decide
  have h2 : jsIncludes witSrc (lit "type=\"tmux\"") = true := by decide
  have h3 : alreadyPatchedCheck witSrc = false := by decide
  have hx : extractMinifiedNames witSrc = some witNames := by decide
  rw [patchCliSource_main h1 h2 h3 hx]
  show (runSteps witNames witSrc).failed = []
  have e1 : splitFirst (p1Anchor witNames) witSrc = some (w1a, w1b) := by decide
  have f1 : (step1 witNames witSrc).failed = [] := by simp [step1, e1]
  have f2 : (step2 witNames (step1 witNames witSrc).code).failed = [] := by
    rw [step2_some wit_split2_c1 wit_letk]
  have f3 : (step3 witNames
      (step2 witNames (step1 witNames witSrc).code).code).failed = [] := by
    simp [step3, wit_err_c2]
  have f4 : (step4 witNames (step3 witNames
      (step2 witNames (step1 witNames witSrc).code).code).code).failed = [] := by
    simp [step4, wit_p4_c3]
  have f6 : (step6 witNames (msgStep msgPairs (step4 witNames (step3 witNames
      (step2 witNames (step1 witNames witSrc).code).code).code).code).1).failed
      = [] := by
    simp [step6, wit_p6_c5]
  rw [runSteps_failed, f1, f2, f3, f4, f6]
  rfl

/-- Witness for claim C1: the miniature source `witSrc` carries both
recognition markers and no signature token, its identifiers extract to
`witNames`, and every anchor is present, so the patcher succeeds on it and
its output is reported already-patched by a second run. -/
theorem C1_witness :
    (patchCliSource witSrc).success = true ∧
      ∃ p, (patchCliSource witSrc).patchedSource = some p ∧
        alreadyPatchedCheck p = true ∧
        patchCliSource p = alreadyPatchedResult :=
  C1_patch_roundtrip witSrc witNames (by decide) (by decide) (by decide)
    (by decide) wit_anchors

/-- The warnings field of a main-path run comes from the edit phase. -/
theorem patchCliSource_main_warnings {code : Str} {ns : Names}
    (h1 : jsIncludes code (lit "BackendRegistry") = true)
    (h2 : jsIncludes code (lit "type=\"tmux\"") = true)
    (h3 : alreadyPatchedCheck code = false)
    (hx : extractMinifiedNames code = some ns) :
    (patchCliSource code).warnings = (runSteps ns code).warnings := by
  rw [patchCliSource_main h1 h2 h3 hx]

/-! ### The `w0Text` run: no message literal present, two warnings -/

/-- The PATCH 1 output on `w0Text` contains none of the literals the later
steps scan for: cascade anchor, error anchor, dispatch juxtaposition, and
the two user-facing message literals. -/
theorem w0_absent :
    ¬ cascadeAnchor <:+: (step1 witNames w0Text).code ∧
    ¬ errorAnchor <:+: (step1 witNames w0Text).code ∧
    ¬ p4Anchor witNames <:+: (step1 witNames w0Text).code ∧
    ¬ msgFind1 <:+: (step1 witNames w0Text).code ∧
    ¬ msgFind2 <:+: (step1 witNames w0Text).code := by
  have e0 : splitFirst (p1Anchor witNames) w0Text = some (w0a, w0b) := by decide
  have hc : (step1 witNames w0Text).code =
      w0a ++ zellijDetectionCode witNames ++ lit "\n" ++ zellijBackendClass witNames ++
        lit "\n" ++ (p1Anchor witNames ++ w0b) := step1_code e0
  have hEq : chunksText pairs0 =
      w0a ++ zellijDetectionCode witNames ++ lit "\n" ++ zellijBackendClass witNames ++
        lit "\n" ++ (p1Anchor witNames ++ w0b) := by
    simp [pairs0, chunksText, zellijDetectionCode, zellijBackendClass, List.append_assoc]
  rw [hc, ← hEq]
  exact ⟨(@chunksScan_nil cascadeAnchor 69 (by decide) (by decide) pairs0
      (by decide) (by decide)).1,
    (@chunksScan_nil errorAnchor 69 (by decide) (by decide) pairs0
      (by decide) (by decide)).1,
    (@chunksScan_nil (p4Anchor witNames) 69 (by decide) (by decide) pairs0
      (by decide) (by decide)).1,
    (@chunksScan_nil msgFind1 69 (by decide) (by decide) pairs0
      (by decide) (by decide)).1,
    (@chunksScan_nil msgFind2 69 (by decide) (by decide) pairs0
      (by decide) (by decide)).1⟩

/-- C4 counterexample: `w0Text` passes every guard and carries none of the
user-facing message literals, yet the run reports exactly two warnings (one
per entry of the two-pair replacement table), not the five the claim
predicts for a text with all claimed literals absent. -/
theorem C4_counterexample :
    jsIncludes w0Text (lit "BackendRegistry") = true ∧
    jsIncludes w0Text (lit "type=\"tmux\"") = true ∧
    alreadyPatchedCheck w0Text = false ∧
    extractMinifiedNames w0Text = some witNames ∧
    jsIncludes w0Text msgFind1 = false ∧
    jsIncludes w0Text msgFind2 = false ∧
    msgPairs.length = 2 ∧
    (patchCliSource w0Text).warnings =
      [msgWarnLabel msgFind1, msgWarnLabel msgFind2] ∧
    (patchCliSource w0Text).warnings.length ≠ 5 := by
  obtain ⟨hca, herr, hp4, hm1, hm2⟩ := w0_absent
  have h1 : jsIncludes w0Text (lit "BackendRegistry") = true := by decide
  have h2 : jsIncludes w0Text (lit "type=\"tmux\"") = true := by decide
  have h3 : alreadyPatchedCheck w0Text = false := by decide
  have hx : extractMinifiedNames w0Text = some witNames := by decide
  have hs2 : step2 witNames (step1 witNames w0Text).code =
      ⟨(step1 witNames w0Text).code, [], [lbl2failAnchor], []⟩ :=
    step2_none (splitFirst_none_iff.mpr hca)
  have hs3 : step3 witNames (step1 witNames w0Text).code =
      ⟨(step1 witNames w0Text).code, [], [lbl3fail], []⟩ := by
    simp [step3, jsIncludes_false_iff.mpr herr]
  have hs4 : step4 witNames (step1 witNames w0Text).code =
      ⟨(step1 witNames w0Text).code, [], [lbl4fail], []⟩ := by
    simp [step4, jsIncludes_false_iff.mpr hp4]
  have hmsg : msgStep msgPairs (step1 witNames w0Text).code =
      ((step1 witNames w0Text).code, [],
        [msgWarnLabel msgFind1, msgWarnLabel msgFind2]) := by
    simp [msgStep, msgPairs, jsIncludes_false_iff.mpr hm1, jsIncludes_false_iff.mpr hm2]
  have hw : (patchCliSource w0Text).warnings =
      [msgWarnLabel msgFind1, msgWarnLabel msgFind2] := by
    rw [patchCliSource_main_warnings h1 h2 h3 hx, runSteps_warnings]
    simp only [hs2, hs3, hs4, hmsg]
  exact ⟨h1, h2, h3, hx, by decide, by decide, rfl, hw, by rw [hw]; decide⟩
